import Mathlib

/-!
# The OpenPGP card command processor of Gnuk (`src/openpgp.c`)

A shallow embedding of the APDU command engine: the response builder, the command
handlers, the re-wrap routine `gpg_change_keystring` and the dispatcher
`process_command_apdu`, followed by theorems about them.

## Conventions of the embedding

* Bytes are natural numbers reduced `% 256` when they are read or stored; C `int`
  values are `Int`.
* The global command buffer `cmd_APDU` is a list of bytes read with `rd` (a read past
  the end of the list yields 0); a pointer into it is the offset of the byte it
  points at.
* The global response buffer `res_APDU` is a function from index to byte.
* Everything that `openpgp.c` calls but does not define (the data object store, the
  credential checks, the access-control flags, the private-key routines, SHA-1,
  RSA) is a field of `Env`: an arbitrary function over an arbitrary collaborator
  state `W`. A collaborator that can change state receives the response buffer too,
  because the buffers are globals of the program.
* Every collaborator invocation is appended to `Machine.trace` with its arguments,
  so that "is invoked", "is not invoked" and "exactly once" are statements about
  the trace.
-/

namespace Gnuk

/-! ## Constants defined in `openpgp.c` -/

def RSA_SIGNATURE_LENGTH : Nat := 256

def INS_VERIFY : Nat := 0x20
def INS_CHANGE_REFERENCE_DATA : Nat := 0x24
def INS_PSO : Nat := 0x2a
def INS_RESET_RETRY_COUNTER : Nat := 0x2c
def INS_PGP_GENERATE_ASYMMETRIC_KEY_PAIR : Nat := 0x47
def INS_SELECT_FILE : Nat := 0xa4
def INS_READ_BINARY : Nat := 0xb0
def INS_GET_DATA : Nat := 0xca
def INS_PUT_DATA : Nat := 0xda
def INS_PUT_DATA_ODD : Nat := 0xdb

def FILE_NONE : Int := -1
def FILE_DF_OPENPGP : Int := 0
def FILE_MF : Int := 1
def FILE_EF_DIR : Int := 2
def FILE_EF_SERIAL : Int := 3

/-- The null pointer, where it is passed as a payload that is never read. -/
def NULL : List Nat := []

/-! ## Data model -/

/-- One invocation of a collaborator, with the arguments the handler passed.
A pointer into `cmd_APDU` is recorded as its offset; a pointer to a local array is
recorded as the contents of the array. -/
inductive Call where
  | verify_pso_cds (off len : Int)
  | verify_pso_other (off len : Int)
  | verify_admin (off len : Int)
  | verify_admin_0 (off len saved : Int)
  | gpg_set_pw3 (off len : Int)
  | gpg_do_read_simple (nr : Nat)
  | gpg_do_write_simple (nr : Nat) (data : List Nat) (size : Nat)
  | gpg_do_put_data (tag : Nat) (off len : Int)
  | gpg_do_get_data (tag : Nat)
  | gpg_do_public_key (kk : Nat)
  | gpg_do_load_prvkey (kind : Nat) (who : Int) (ks : List Nat)
  | gpg_do_chks_prvkey (kind : Nat) (who_old : Int) (old_ks : List Nat)
      (who_new : Int) (new_ks : List Nat)
  | sha1 (off ilen : Int)
  | rsa_sign (off len : Int)
  | reset_pso_cds
  | ac_check_status (flag : Nat)
  | gpg_do_increment_digital_signature_counter
  deriving DecidableEq, Repr

/-- The part of the program state a collaborator can change: the global response
buffer with its size, and the collaborator's own state `ext` (flash, flags, keys). -/
structure Out (W : Type) where
  res_APDU : Nat → Nat
  res_APDU_size : Nat
  ext : W

/-- The constants, tables and functions that `openpgp.c` uses and that are declared
in headers or defined in other files. The constants come from `gnuk.h`; the status
words are the byte pairs of the `GPG_...()` shorthands. -/
structure Env (W : Type) where
  KEYSTRING_MD_SIZE : Nat
  KEYSTRING_SIZE_PW1 : Nat
  SIZE_PW_STATUS_BYTES : Nat
  PW_STATUS_PW1 : Nat
  PW_STATUS_RC : Nat
  GNUK_DO_KEYSTRING_PW1 : Nat
  GNUK_DO_KEYSTRING_RC : Nat
  GNUK_DO_PW_STATUS : Nat
  GPG_KEY_FOR_SIGNATURE : Nat
  AC_PSO_CDS_AUTHORIZED : Nat
  AC_ADMIN_AUTHORIZED : Nat
  SW_SUCCESS : Nat × Nat
  SW_SECURITY_FAILURE : Nat × Nat
  SW_SECURITY_AUTH_BLOCKED : Nat × Nat
  SW_NO_FILE : Nat × Nat
  SW_NO_RECORD : Nat × Nat
  SW_BAD_P0_P1 : Nat × Nat
  SW_NO_INS : Nat × Nat
  SW_MEMORY_FAILURE : Nat × Nat
  select_file_TOP_result : List Nat
  get_data_rb_result : List Nat
  keystring_md_pw3 : W → List Nat
  verify_pso_cds : List Nat → Int → Int → Out W → Int × Out W
  verify_pso_other : List Nat → Int → Int → Out W → Int × Out W
  verify_admin : List Nat → Int → Int → Out W → Int × Out W
  verify_admin_0 : List Nat → Int → Int → Int → Out W → Int × Out W
  gpg_set_pw3 : List Nat → Int → Int → Out W → Out W
  gpg_do_read_simple : Nat → W → Option (List Nat)
  gpg_do_write_simple : Nat → List Nat → Nat → Out W → Out W
  gpg_do_put_data : Nat → List Nat → Int → Int → Out W → Out W
  gpg_do_get_data : Nat → Out W → Out W
  gpg_do_public_key : Nat → Out W → Out W
  gpg_do_load_prvkey : Nat → Int → List Nat → Out W → Int × Out W
  gpg_do_chks_prvkey : Nat → Int → List Nat → Int → List Nat → Out W → Int × Out W
  sha1 : List Nat → Int → Int → List Nat
  rsa_sign : List Nat → Int → Int → Out W → Int × Out W
  reset_pso_cds : Out W → Out W
  ac_check_status : Nat → W → Bool
  gpg_do_increment_digital_signature_counter : Out W → Out W

/-- The state of the command processor between two steps of a handler.
`stack_junk` is the indeterminate content an automatic array has before it is
written; `trace` is the list of collaborator invocations so far. -/
structure Machine (W : Type) where
  cmd_APDU : List Nat
  cmd_APDU_size : Int
  file_selection : Int
  stack_junk : List Nat
  out : Out W
  trace : List Call

variable {W : Type}

/-- Read of byte `i` of a byte array. -/
def rd (buf : List Nat) (i : Nat) : Nat := buf.getD i 0 % 256

/-- Conversion of a C `int` to `uint8_t`. -/
def u8 (x : Int) : Nat := (x % 256).toNat

/-- Store of byte `v` at index `i` of a buffer. -/
def poke (buf : Nat → Nat) (i v : Nat) : Nat → Nat :=
  fun j => if j = i then v % 256 else buf j

/-- Copy of the first `n` bytes of `src` to the start of `dst`. -/
def memcpy (dst : Nat → Nat) (src : List Nat) (n : Nat) : Nat → Nat :=
  fun j => if j < n then rd src j else dst j

/-- Comparison of the first `n` bytes of two arrays: `true` when they are equal
(the C function returns 0). -/
def memcmp_eq (a b : List Nat) (n : Nat) : Bool :=
  (List.range n).all fun i => rd a i == rd b i

/-- The command byte `cmd_APDU[i]`. -/
def Machine.byte (s : Machine W) (i : Nat) : Nat := rd s.cmd_APDU i

/-- A step of the handler itself on the response buffer. -/
def Machine.resp (s : Machine W) (f : Out W → Out W) : Machine W :=
  { s with out := f s.out }

/-- A read-only collaborator is invoked: only the trace grows. -/
def Machine.note (s : Machine W) (c : Call) : Machine W :=
  { s with trace := s.trace ++ [c] }

/-- A collaborator without result is invoked. -/
def Machine.ext0 (s : Machine W) (c : Call) (f : Out W → Out W) : Machine W :=
  { s with out := f s.out, trace := s.trace ++ [c] }

/-- A collaborator with an `int` result is invoked. -/
def Machine.ext1 (s : Machine W) (c : Call) (f : Out W → Int × Out W) :
    Int × Machine W :=
  ((f s.out).1, { s with out := (f s.out).2, trace := s.trace ++ [c] })

/-! ## Response builder -/

/-- Embedding of `write_res_apdu (p, len, sw1, sw2)`. -/
def write_res_apdu (p : List Nat) (len : Nat) (sw1 sw2 : Nat) (o : Out W) : Out W :=
  let copied := if len ≠ 0 then memcpy o.res_APDU p len else o.res_APDU
  { o with
    res_APDU_size := 2 + len
    res_APDU := poke (poke copied len sw1) (len + 1) sw2 }

/-- Modelled from the spec: the shorthand `GPG_SUCCESS ()` of `gnuk.h`, which is not
among the sources: a Response with no payload and the status Success. -/
def GPG_SUCCESS (E : Env W) (o : Out W) : Out W :=
  write_res_apdu NULL 0 E.SW_SUCCESS.1 E.SW_SUCCESS.2 o

/-- Modelled from the spec: the shorthand `GPG_SECURITY_FAILURE ()` of `gnuk.h`:
a Response with no payload and the status SecurityFailure. -/
def GPG_SECURITY_FAILURE (E : Env W) (o : Out W) : Out W :=
  write_res_apdu NULL 0 E.SW_SECURITY_FAILURE.1 E.SW_SECURITY_FAILURE.2 o

/-- Modelled from the spec: the shorthand `GPG_SECURITY_AUTH_BLOCKED ()` of
`gnuk.h`: a Response with no payload and the status AuthBlocked. -/
def GPG_SECURITY_AUTH_BLOCKED (E : Env W) (o : Out W) : Out W :=
  write_res_apdu NULL 0 E.SW_SECURITY_AUTH_BLOCKED.1 E.SW_SECURITY_AUTH_BLOCKED.2 o

/-- Modelled from the spec: the shorthand `GPG_NO_FILE ()` of `gnuk.h`: a Response
with no payload and the status "file/record not found". -/
def GPG_NO_FILE (E : Env W) (o : Out W) : Out W :=
  write_res_apdu NULL 0 E.SW_NO_FILE.1 E.SW_NO_FILE.2 o

/-- Modelled from the spec: the shorthand `GPG_NO_RECORD ()` of `gnuk.h`: a Response
with no payload and the status NoRecord. -/
def GPG_NO_RECORD (E : Env W) (o : Out W) : Out W :=
  write_res_apdu NULL 0 E.SW_NO_RECORD.1 E.SW_NO_RECORD.2 o

/-- Modelled from the spec: the shorthand `GPG_BAD_P0_P1 ()` of `gnuk.h`: a Response
with no payload and the status BadParameter. -/
def GPG_BAD_P0_P1 (E : Env W) (o : Out W) : Out W :=
  write_res_apdu NULL 0 E.SW_BAD_P0_P1.1 E.SW_BAD_P0_P1.2 o

/-- Modelled from the spec: the shorthand `GPG_NO_INS ()` of `gnuk.h`: a Response
with no payload and the status UnknownInstruction. -/
def GPG_NO_INS (E : Env W) (o : Out W) : Out W :=
  write_res_apdu NULL 0 E.SW_NO_INS.1 E.SW_NO_INS.2 o

/-- Modelled from the spec: the shorthand `GPG_MEMORY_FAILURE ()` of `gnuk.h`:
a Response with no payload and the status MemoryFailure. -/
def GPG_MEMORY_FAILURE (E : Env W) (o : Out W) : Out W :=
  write_res_apdu NULL 0 E.SW_MEMORY_FAILURE.1 E.SW_MEMORY_FAILURE.2 o

/-! ## Handlers -/

/-- Embedding of `cmd_verify`. -/
def cmd_verify (E : Env W) (s : Machine W) : Machine W :=
  let p2 := s.byte 3
  let len : Int := s.byte 4
  let x : Int × Machine W :=
    if p2 = 0x81 then
      s.ext1 (Call.verify_pso_cds 5 len) (E.verify_pso_cds s.cmd_APDU 5 len)
    else if p2 = 0x82 then
      s.ext1 (Call.verify_pso_other 5 len) (E.verify_pso_other s.cmd_APDU 5 len)
    else
      s.ext1 (Call.verify_admin 5 len) (E.verify_admin s.cmd_APDU 5 len)
  let r := x.1
  if r < 0 then x.2.resp (GPG_SECURITY_FAILURE E)
  else if r = 0 then x.2.resp (GPG_SECURITY_AUTH_BLOCKED E)
  else x.2.resp (GPG_SUCCESS E)

/-- Embedding of `gpg_change_keystring`: load the private key with the old Key
String, then re-encrypt it under the new one. -/
def gpg_change_keystring (E : Env W) (who_old : Int) (old_ks : List Nat)
    (who_new : Int) (new_ks : List Nat) (s : Machine W) : Int × Machine W :=
  let x := s.ext1 (Call.gpg_do_load_prvkey E.GPG_KEY_FOR_SIGNATURE who_old old_ks)
    (E.gpg_do_load_prvkey E.GPG_KEY_FOR_SIGNATURE who_old old_ks)
  if x.1 ≤ 0 then x
  else
    let y := x.2.ext1
      (Call.gpg_do_chks_prvkey E.GPG_KEY_FOR_SIGNATURE who_old old_ks who_new new_ks)
      (E.gpg_do_chks_prvkey E.GPG_KEY_FOR_SIGNATURE who_old old_ks who_new new_ks)
    if y.1 < 0 then (-2, y.2) else y

/-- The block at the label `no_prvkey` of `cmd_change_password`: the full-size PW1
Key String is written from the array `new_ks0`, and signing authorization is
reset. -/
def cmd_change_password_no_prvkey (E : Env W) (new_ks0 : List Nat) (s : Machine W) :
    Machine W :=
  let s1 := s.ext0
    (Call.gpg_do_write_simple E.GNUK_DO_KEYSTRING_PW1 new_ks0 E.KEYSTRING_SIZE_PW1)
    (E.gpg_do_write_simple E.GNUK_DO_KEYSTRING_PW1 new_ks0 E.KEYSTRING_SIZE_PW1)
  s1.ext0 Call.reset_pso_cds E.reset_pso_cds

/-- The part of `cmd_change_password` from the two `sha1` calls to the end, which
both credential branches reach with `pw_len`, `newpw` (as an offset) and
`newpw_len` set. -/
def cmd_change_password_rewrap (E : Env W) (who pw_len newpw newpw_len : Int)
    (s : Machine W) : Machine W :=
  let old_ks := E.sha1 s.cmd_APDU 5 pw_len
  let s1 := s.note (Call.sha1 5 pw_len)
  let new_ks := E.sha1 s.cmd_APDU newpw newpw_len
  let s2 := s1.note (Call.sha1 newpw newpw_len)
  let new_ks0 := u8 newpw_len :: new_ks
  let x := gpg_change_keystring E who old_ks who new_ks s2
  let r := x.1
  if r < -2 then x.2.resp (GPG_MEMORY_FAILURE E)
  else if r < 0 then x.2.resp (GPG_SECURITY_FAILURE E)
  else if r = 0 ∧ who = 1 then cmd_change_password_no_prvkey E new_ks0 x.2
  else if r > 0 ∧ who = 1 then
    let s3 := x.2.ext0 (Call.gpg_do_write_simple E.GNUK_DO_KEYSTRING_PW1 new_ks0 1)
      (E.gpg_do_write_simple E.GNUK_DO_KEYSTRING_PW1 new_ks0 1)
    s3.ext0 Call.reset_pso_cds E.reset_pso_cds
  else x.2.resp (GPG_SUCCESS E)

/-- Embedding of `cmd_change_password`. With no PW1 Key String stored the handler
jumps to `no_prvkey` over the statements that fill `new_ks0`, so the array still
holds `stack_junk` there. -/
def cmd_change_password (E : Env W) (s : Machine W) : Machine W :=
  let p2 := s.byte 3
  let len : Int := s.byte 4
  let who : Int := (p2 : Int) - 0x80
  if who = 1 then
    let pk := E.gpg_do_read_simple E.GNUK_DO_KEYSTRING_PW1 s.out.ext
    let s1 := s.note (Call.gpg_do_read_simple E.GNUK_DO_KEYSTRING_PW1)
    match pk with
    | none =>
      if len < 6 then s1.resp (GPG_SECURITY_FAILURE E)
      else cmd_change_password_no_prvkey E s.stack_junk s1
    | some pkb =>
      let pw_len : Int := rd pkb 0
      cmd_change_password_rewrap E who pw_len (5 + pw_len) (len - pw_len) s1
  else
    let x := s.ext1 (Call.verify_admin_0 5 len (-1))
      (E.verify_admin_0 s.cmd_APDU 5 len (-1))
    let pw_len := x.1
    if pw_len < 0 then x.2.resp (GPG_SECURITY_FAILURE E)
    else if pw_len = 0 then x.2.resp (GPG_SECURITY_AUTH_BLOCKED E)
    else
      let s2 := x.2.ext0 (Call.gpg_set_pw3 (5 + pw_len) (len - pw_len))
        (E.gpg_set_pw3 s.cmd_APDU (5 + pw_len) (len - pw_len))
      cmd_change_password_rewrap E who pw_len (5 + pw_len) (len - pw_len) s2

/-- The block at the label `sec_fail` of `cmd_reset_user_password`: a copy of the
Password Status with the reset-code counter decremented (as `uint8_t`) is written
back, and the Response is SecurityFailure. -/
def cmd_reset_user_password_sec_fail (E : Env W) (pw_status_bytes : List Nat)
    (s : Machine W) : Machine W :=
  let pwsb0 := (List.range E.SIZE_PW_STATUS_BYTES).map fun i => rd pw_status_bytes i
  let pwsb := pwsb0.set E.PW_STATUS_RC (u8 ((rd pwsb0 E.PW_STATUS_RC : Int) - 1))
  let s1 := s.ext0
    (Call.gpg_do_write_simple E.GNUK_DO_PW_STATUS pwsb E.SIZE_PW_STATUS_BYTES)
    (E.gpg_do_write_simple E.GNUK_DO_PW_STATUS pwsb E.SIZE_PW_STATUS_BYTES)
  s1.resp (GPG_SECURITY_FAILURE E)

/-- Embedding of `cmd_reset_user_password`. The handler takes `len` from
`cmd_APDU[3]` and lets `pw` point at `cmd_APDU[4]`. -/
def cmd_reset_user_password (E : Env W) (s : Machine W) : Machine W :=
  let p1 := s.byte 2
  let len : Int := s.byte 3
  if p1 = 0x00 then
    let pw_status_bytes := E.gpg_do_read_simple E.GNUK_DO_PW_STATUS s.out.ext
    let s1 := s.note (Call.gpg_do_read_simple E.GNUK_DO_PW_STATUS)
    let ks_rc := E.gpg_do_read_simple E.GNUK_DO_KEYSTRING_RC s1.out.ext
    let s2 := s1.note (Call.gpg_do_read_simple E.GNUK_DO_KEYSTRING_RC)
    match pw_status_bytes with
    | none => s2.resp (GPG_SECURITY_AUTH_BLOCKED E)
    | some pws =>
      if rd pws E.PW_STATUS_PW1 = 0 then s2.resp (GPG_SECURITY_AUTH_BLOCKED E)
      else
        match ks_rc with
        | none => s2.resp (GPG_SECURITY_FAILURE E)
        | some ks =>
          let pw_len : Int := rd ks 0
          let newpw : Int := 4 + pw_len
          let newpw_len : Int := len - pw_len
          let old_ks := E.sha1 s.cmd_APDU 4 pw_len
          let s3 := s2.note (Call.sha1 4 pw_len)
          let new_ks := E.sha1 s.cmd_APDU newpw newpw_len
          let s4 := s3.note (Call.sha1 newpw newpw_len)
          let new_ks0 := u8 newpw_len :: new_ks
          let x := gpg_change_keystring E 2 old_ks 1 new_ks s4
          let r := x.1
          if r < -2 then x.2.resp (GPG_MEMORY_FAILURE E)
          else if r < 0 then cmd_reset_user_password_sec_fail E pws x.2
          else if r = 0 then
            if memcmp_eq (ks.drop 1) old_ks E.KEYSTRING_MD_SIZE = false then
              cmd_reset_user_password_sec_fail E pws x.2
            else
              let s5 := x.2.ext0
                (Call.gpg_do_write_simple E.GNUK_DO_KEYSTRING_PW1 new_ks0
                  E.KEYSTRING_SIZE_PW1)
                (E.gpg_do_write_simple E.GNUK_DO_KEYSTRING_PW1 new_ks0
                  E.KEYSTRING_SIZE_PW1)
              s5.ext0 Call.reset_pso_cds E.reset_pso_cds
          else
            let s5 := x.2.ext0 Call.reset_pso_cds E.reset_pso_cds
            s5.resp (GPG_SUCCESS E)
  else
    let s1 := s.note (Call.ac_check_status E.AC_ADMIN_AUTHORIZED)
    if E.ac_check_status E.AC_ADMIN_AUTHORIZED s.out.ext = false then
      s1.resp (GPG_SECURITY_FAILURE E)
    else
      let old_ks := E.keystring_md_pw3 s.out.ext
      let newpw_len : Int := len
      let newpw : Int := 4
      let new_ks := E.sha1 s.cmd_APDU newpw newpw_len
      let s2 := s1.note (Call.sha1 newpw newpw_len)
      let new_ks0 := u8 newpw_len :: new_ks
      let x := gpg_change_keystring E 3 old_ks 1 new_ks s2
      let r := x.1
      if r < -2 then x.2.resp (GPG_MEMORY_FAILURE E)
      else if r < 0 then x.2.resp (GPG_SECURITY_FAILURE E)
      else if r = 0 then
        let s3 := x.2.ext0
          (Call.gpg_do_write_simple E.GNUK_DO_KEYSTRING_PW1 new_ks0 E.KEYSTRING_SIZE_PW1)
          (E.gpg_do_write_simple E.GNUK_DO_KEYSTRING_PW1 new_ks0 E.KEYSTRING_SIZE_PW1)
        s3.ext0 Call.reset_pso_cds E.reset_pso_cds
      else
        let s3 := x.2.ext0 Call.reset_pso_cds E.reset_pso_cds
        s3.resp (GPG_SUCCESS E)

/-- The C expression `(hi << 8) | lo` on two bytes. -/
def be16 (hi lo : Nat) : Nat := (hi <<< 8) ||| lo

/-- The 16-bit tag `(cmd_APDU[2] << 8) | cmd_APDU[3]`, stored in a `uint16_t`. -/
def Machine.tag (s : Machine W) : Nat := be16 (s.byte 2) (s.byte 3) % 65536

/-- Embedding of `cmd_put_data`. No `return` follows `GPG_NO_RECORD ()`: control
goes on to the store in every file selection. -/
def cmd_put_data (E : Env W) (s : Machine W) : Machine W :=
  let s1 := if s.file_selection ≠ FILE_DF_OPENPGP then s.resp (GPG_NO_RECORD E) else s
  let tag := s.tag
  let len : Int := s.cmd_APDU_size - 5
  let data : Int := 5
  let data1 : Int := if len ≥ 256 then data + 2 else data
  let len1 : Int := if len ≥ 256 then len - 2 else len
  s1.ext0 (Call.gpg_do_put_data tag data1 len1)
    (E.gpg_do_put_data tag s.cmd_APDU data1 len1)

/-- Embedding of `cmd_pgp_gakp`. No `return` follows `GPG_SECURITY_FAILURE ()`. -/
def cmd_pgp_gakp (E : Env W) (s : Machine W) : Machine W :=
  if s.byte 2 = 0x81 then
    s.ext0 (Call.gpg_do_public_key (s.byte 5)) (E.gpg_do_public_key (s.byte 5))
  else
    let s1 := s.note (Call.ac_check_status E.AC_ADMIN_AUTHORIZED)
    let s2 :=
      if E.ac_check_status E.AC_ADMIN_AUTHORIZED s.out.ext = false then
        s1.resp (GPG_SECURITY_FAILURE E)
      else s1
    s2.resp (write_res_apdu NULL 0 0x6a 0x88)

/-- Embedding of `cmd_read_binary`; `sizeof (get_data_rb_result)` is 6. -/
def cmd_read_binary (E : Env W) (s : Machine W) : Machine W :=
  if s.file_selection = FILE_EF_SERIAL then
    if s.byte 3 ≥ 6 then s.resp (GPG_BAD_P0_P1 E)
    else s.resp (write_res_apdu E.get_data_rb_result 6 0x90 0x00)
  else s.resp (GPG_NO_RECORD E)

/-- Embedding of `cmd_select_file`; `sizeof (select_file_TOP_result)` is 20. -/
def cmd_select_file (E : Env W) (s : Machine W) : Machine W :=
  if s.byte 2 = 4 then
    { s with file_selection := FILE_DF_OPENPGP }.resp (GPG_SUCCESS E)
  else if s.byte 4 = 2 ∧ s.byte 5 = 0x2f ∧ s.byte 6 = 0x02 then
    { s.resp (GPG_SUCCESS E) with file_selection := FILE_EF_SERIAL }
  else if s.byte 4 = 2 ∧ s.byte 5 = 0x3f ∧ s.byte 6 = 0x00 then
    let s1 :=
      if s.byte 3 = 0x0c then s.resp (GPG_SUCCESS E)
      else s.resp (write_res_apdu E.select_file_TOP_result 20 0x90 0x00)
    { s1 with file_selection := FILE_MF }
  else
    { s with file_selection := FILE_NONE }.resp (GPG_NO_FILE E)

/-- Embedding of `cmd_get_data`. No `return` follows `GPG_NO_RECORD ()`: control
goes on to the store in every file selection. -/
def cmd_get_data (E : Env W) (s : Machine W) : Machine W :=
  let tag := s.tag
  let s1 := if s.file_selection ≠ FILE_DF_OPENPGP then s.resp (GPG_NO_RECORD E) else s
  s1.ext0 (Call.gpg_do_get_data tag) (E.gpg_do_get_data tag)

/-- Embedding of `cmd_pso`. The result is `none` where the handler reads through
the null pointer (no Password Status stored when the signature succeeded). When the
command size is neither 43 nor 44 the handler only emits debug output. -/
def cmd_pso (E : Env W) (s : Machine W) : Option (Machine W) :=
  if s.byte 2 = 0x9E ∧ s.byte 3 = 0x9A then
    let s1 := s.note (Call.ac_check_status E.AC_PSO_CDS_AUTHORIZED)
    if E.ac_check_status E.AC_PSO_CDS_AUTHORIZED s.out.ext = false then
      some (s1.resp (GPG_SECURITY_FAILURE E))
    else if s.cmd_APDU_size ≠ 8 + 35 ∧ s.cmd_APDU_size ≠ 8 + 35 + 1 then
      some s1
    else
      let len : Int := be16 (s.byte 5) (s.byte 6)
      let x := s1.ext1 (Call.rsa_sign 7 len) (E.rsa_sign s.cmd_APDU 7 len)
      let r := x.1
      if r < 0 then some (x.2.resp (write_res_apdu NULL 0 0x69 0x85))
      else
        let pw_status_bytes := E.gpg_do_read_simple E.GNUK_DO_PW_STATUS x.2.out.ext
        let s2 := x.2.note (Call.gpg_do_read_simple E.GNUK_DO_PW_STATUS)
        let s3 := s2.resp fun o =>
          { o with
            res_APDU := poke (poke o.res_APDU RSA_SIGNATURE_LENGTH 0x90)
              (RSA_SIGNATURE_LENGTH + 1) 0x00
            res_APDU_size := RSA_SIGNATURE_LENGTH + 2 }
        match pw_status_bytes with
        | none => none
        | some pws =>
          let s4 := if rd pws 0 = 0 then s3.ext0 Call.reset_pso_cds E.reset_pso_cds else s3
          some (s4.ext0 Call.gpg_do_increment_digital_signature_counter
            E.gpg_do_increment_digital_signature_counter)
  else some (s.resp (GPG_SUCCESS E))

/-! ## Dispatcher -/

/-- The handlers the table `cmds` points at. -/
inductive Handler where
  | cmd_verify
  | cmd_change_password
  | cmd_pso
  | cmd_reset_user_password
  | cmd_pgp_gakp
  | cmd_select_file
  | cmd_read_binary
  | cmd_get_data
  | cmd_put_data
  deriving DecidableEq, Repr

/-- The table `cmds` of instruction bytes and handlers. -/
def cmds : List (Nat × Handler) :=
  [ (INS_VERIFY, Handler.cmd_verify),
    (INS_CHANGE_REFERENCE_DATA, Handler.cmd_change_password),
    (INS_PSO, Handler.cmd_pso),
    (INS_RESET_RETRY_COUNTER, Handler.cmd_reset_user_password),
    (INS_PGP_GENERATE_ASYMMETRIC_KEY_PAIR, Handler.cmd_pgp_gakp),
    (INS_SELECT_FILE, Handler.cmd_select_file),
    (INS_READ_BINARY, Handler.cmd_read_binary),
    (INS_GET_DATA, Handler.cmd_get_data),
    (INS_PUT_DATA, Handler.cmd_put_data),
    (INS_PUT_DATA_ODD, Handler.cmd_put_data) ]

def NUM_CMDS : Nat := cmds.length

/-- The call `cmds[i].cmd_handler ()` through the function pointer. -/
def Handler.run (E : Env W) (h : Handler) (s : Machine W) : Option (Machine W) :=
  match h with
  | Handler.cmd_verify => some (Gnuk.cmd_verify E s)
  | Handler.cmd_change_password => some (Gnuk.cmd_change_password E s)
  | Handler.cmd_pso => Gnuk.cmd_pso E s
  | Handler.cmd_reset_user_password => some (Gnuk.cmd_reset_user_password E s)
  | Handler.cmd_pgp_gakp => some (Gnuk.cmd_pgp_gakp E s)
  | Handler.cmd_select_file => some (Gnuk.cmd_select_file E s)
  | Handler.cmd_read_binary => some (Gnuk.cmd_read_binary E s)
  | Handler.cmd_get_data => some (Gnuk.cmd_get_data E s)
  | Handler.cmd_put_data => some (Gnuk.cmd_put_data E s)

/-- The search loop of `process_command_apdu` from index `i` on, over the entries
`rest` that are still to be compared: the value of `i` when the loop ends. -/
def search_cmds (cmd : Nat) : List (Nat × Handler) → Nat → Nat
  | [], i => i
  | e :: rest, i => if e.1 = cmd then i else search_cmds cmd rest (i + 1)

/-- Embedding of `process_command_apdu`. -/
def process_command_apdu (E : Env W) (s : Machine W) : Option (Machine W) :=
  let cmd := s.byte 1
  let i := search_cmds cmd cmds 0
  if i < NUM_CMDS then
    match cmds.get? i with
    | some e => e.2.run E s
    | none => none
  else some (s.resp (GPG_NO_INS E))

/-! ## Reading a Response -/

/-- The Response in `o` has no payload and carries the status word `sw`. -/
def Out.isStatus (o : Out W) (sw : Nat × Nat) : Prop :=
  o.res_APDU_size = 2 ∧ o.res_APDU 0 = sw.1 % 256 ∧ o.res_APDU 1 = sw.2 % 256

instance (o : Out W) (sw : Nat × Nat) : Decidable (o.isStatus sw) := by
  unfold Out.isStatus
  exact inferInstance

/-! ## A concrete card

A small instance of the collaborators, used to run the handlers on concrete
commands. -/

/-- Modelled from the spec: the state of the collaborators that are not among the
sources. `objects` is the Data Object Store (tag to value), `simple` holds the
internal objects that `gpg_do_read_simple` and `gpg_do_write_simple` address by
number, the three flags are the Security State, `ds_count` is the Signature
Counter, and `prvkey` lists, per credential kind, the Key String under which the
signing key is wrapped (empty when there is no private key). -/
structure Card where
  objects : List (Nat × List Nat)
  simple : List (Nat × List Nat)
  pso_cds_authorized : Bool
  pso_other_authorized : Bool
  admin_authorized : Bool
  ds_count : Nat
  prvkey : List (Int × List Nat)

/-- The `len` bytes of `buf` from offset `off` on. -/
def slice (buf : List Nat) (off len : Int) : List Nat :=
  (List.range len.toNat).map fun i => rd buf (off.toNat + i)

/-- A 20-byte stand-in for the message digest on the concrete card (it is not
SHA-1; the handlers never look inside a digest). -/
def Card.digest (buf : List Nat) (off len : Int) : List Nat :=
  (List.range 20).map fun i => (rd (slice buf off len) i + 7 * len.toNat + i) % 256

/-- Replacement of the value stored under key `k`. -/
def Card.put {K : Type} [DecidableEq K] (l : List (K × List Nat)) (k : K)
    (v : List Nat) : List (K × List Nat) :=
  (k, v) :: l.filter fun e => e.1 ≠ k

def Card.NR_PW_STATUS : Nat := 0
def Card.NR_KEYSTRING_PW1 : Nat := 1
def Card.NR_KEYSTRING_RC : Nat := 2
def Card.NR_KEYSTRING_PW3 : Nat := 3

/-- Modelled from the spec: a credential check (section 4.3) on the concrete card.
`ctr` is the index of the credential's retry counter in the Password Status and
`nr` the number of its stored Key String (length byte, then digest). The result is
0 when the counter is exhausted, the length of the secret when it matches (the
counter is restored to 3), and -1 otherwise (the counter is decremented). -/
def Card.check (w : Card) (ctr nr : Nat) (buf : List Nat) (off len : Int) : Int × Card :=
  match w.simple.lookup Card.NR_PW_STATUS, w.simple.lookup nr with
  | some pws, some ks =>
    if rd pws ctr = 0 then (0, w)
    else if (rd ks 0 : Int) ≤ len ∧ ks.drop 1 = Card.digest buf off (rd ks 0) then
      ((rd ks 0 : Int),
        { w with simple := Card.put w.simple Card.NR_PW_STATUS (pws.set ctr 3) })
    else
      (-1, { w with
        simple := Card.put w.simple Card.NR_PW_STATUS (pws.set ctr (rd pws ctr - 1)) })
  | _, _ => (-1, w)

/-- Modelled from the spec: the collaborators on the concrete card, with the
constants of `gnuk.h` and the ISO 7816 status words. The store answers Get Data
with the value and Success or with NoRecord, and Put Data with Success; the
private-key routines succeed when the Key String offered is the one in `prvkey`. -/
def cardEnv : Env Card where
  KEYSTRING_MD_SIZE := 20
  KEYSTRING_SIZE_PW1 := 21
  SIZE_PW_STATUS_BYTES := 7
  PW_STATUS_PW1 := 4
  PW_STATUS_RC := 5
  GNUK_DO_KEYSTRING_PW1 := Card.NR_KEYSTRING_PW1
  GNUK_DO_KEYSTRING_RC := Card.NR_KEYSTRING_RC
  GNUK_DO_PW_STATUS := Card.NR_PW_STATUS
  GPG_KEY_FOR_SIGNATURE := 0
  AC_PSO_CDS_AUTHORIZED := 1
  AC_ADMIN_AUTHORIZED := 4
  SW_SUCCESS := (0x90, 0x00)
  SW_SECURITY_FAILURE := (0x69, 0x82)
  SW_SECURITY_AUTH_BLOCKED := (0x69, 0x83)
  SW_NO_FILE := (0x6a, 0x82)
  SW_NO_RECORD := (0x6a, 0x88)
  SW_BAD_P0_P1 := (0x6b, 0x00)
  SW_NO_INS := (0x6d, 0x00)
  SW_MEMORY_FAILURE := (0x65, 0x81)
  select_file_TOP_result := List.replicate 20 0
  get_data_rb_result := [0x5a, 0x04, 0x01, 0x02, 0x03, 0x04]
  keystring_md_pw3 := fun w => ((w.simple.lookup Card.NR_KEYSTRING_PW3).getD []).drop 1
  verify_pso_cds := fun buf off len o =>
    let x := o.ext.check 4 Card.NR_KEYSTRING_PW1 buf off len
    (x.1, { o with ext := { x.2 with pso_cds_authorized := decide (0 < x.1) } })
  verify_pso_other := fun buf off len o =>
    let x := o.ext.check 4 Card.NR_KEYSTRING_PW1 buf off len
    (x.1, { o with ext := { x.2 with pso_other_authorized := decide (0 < x.1) } })
  verify_admin := fun buf off len o =>
    let x := o.ext.check 6 Card.NR_KEYSTRING_PW3 buf off len
    (x.1, { o with ext := { x.2 with admin_authorized := decide (0 < x.1) } })
  verify_admin_0 := fun buf off len _ o =>
    let x := o.ext.check 6 Card.NR_KEYSTRING_PW3 buf off len
    (x.1, { o with ext := { x.2 with admin_authorized := decide (0 < x.1) } })
  gpg_set_pw3 := fun buf off len o =>
    let ks := u8 len :: Card.digest buf off len
    { o with ext := { o.ext with simple := Card.put o.ext.simple Card.NR_KEYSTRING_PW3 ks } }
  gpg_do_read_simple := fun nr w => w.simple.lookup nr
  gpg_do_write_simple := fun nr data size o =>
    { o with ext := { o.ext with simple := Card.put o.ext.simple nr (data.take size) } }
  gpg_do_put_data := fun tag buf off len o =>
    write_res_apdu NULL 0 0x90 0x00
      { o with ext := { o.ext with objects := Card.put o.ext.objects tag (slice buf off len) } }
  gpg_do_get_data := fun tag o =>
    match o.ext.objects.lookup tag with
    | some v => write_res_apdu v v.length 0x90 0x00 o
    | none => write_res_apdu NULL 0 0x6a 0x88 o
  gpg_do_public_key := fun _ o => write_res_apdu NULL 0 0x6a 0x88 o
  gpg_do_load_prvkey := fun _ who ks o =>
    if o.ext.prvkey = [] then (0, o)
    else if o.ext.prvkey.lookup who = some ks then (1, o)
    else (-1, o)
  gpg_do_chks_prvkey := fun _ _ _ who_new new_ks o =>
    (1, { o with ext := { o.ext with prvkey := Card.put o.ext.prvkey who_new new_ks } })
  sha1 := Card.digest
  rsa_sign := fun buf off len o =>
    let sig := (List.range 256).map fun i => (rd (slice buf off len) (i % 35) + i) % 256
    if o.ext.prvkey = [] then (-1, o)
    else (0, { o with res_APDU := memcpy o.res_APDU sig 256 })
  reset_pso_cds := fun o => { o with ext := { o.ext with pso_cds_authorized := false } }
  ac_check_status := fun flag w =>
    if flag = 1 then w.pso_cds_authorized
    else if flag = 2 then w.pso_other_authorized
    else if flag = 4 then w.admin_authorized
    else false
  gpg_do_increment_digital_signature_counter := fun o =>
    { o with ext := { o.ext with ds_count := o.ext.ds_count + 1 } }

/-- A card fresh from the factory but for the given flags: Password Status with
persistent signing authorization and all three retry counters at 3, no Key
Strings, no private key, no data objects. -/
def Card.blank : Card where
  objects := []
  simple := [(Card.NR_PW_STATUS, [1, 127, 127, 127, 3, 3, 3])]
  pso_cds_authorized := false
  pso_other_authorized := false
  admin_authorized := false
  ds_count := 0
  prvkey := []

/-- The machine state in which a command of `bytes` arrives on card `w` with file
selection `fs`; the response buffer still holds the bytes `0xEE` and the size 77
of an earlier Response. -/
def arrive (bytes : List Nat) (fs : Int) (w : Card) : Machine Card where
  cmd_APDU := bytes
  cmd_APDU_size := bytes.length
  file_selection := fs
  stack_junk := List.replicate 21 0xCC
  out := { res_APDU := fun _ => 0xEE, res_APDU_size := 77, ext := w }
  trace := []

/-- The collaborator invocations made on the way from state `s` to state `r`. -/
def Machine.since (r s : Machine W) : List Call := r.trace.drop s.trace.length

/-- The invocations that persist something or reset signing authorization:
`gpg_do_write_simple`, `gpg_set_pw3` and `reset_pso_cds`. -/
def Call.persists : Call → Bool
  | Call.gpg_do_write_simple _ _ _ => true
  | Call.gpg_set_pw3 _ _ => true
  | Call.reset_pso_cds => true
  | _ => false

/-- The collaborator step `f` leaves the response buffer and its size as it finds
them. -/
def KeepsResponse (f : Out W → Out W) : Prop :=
  ∀ o, (f o).res_APDU = o.res_APDU ∧ (f o).res_APDU_size = o.res_APDU_size

/-- Modelled from the spec: the signing-authorization flag of the Security State
(section 3) as the handlers see it. `reset_pso_cds` clears the flag that
`ac_check_status (AC_PSO_CDS_AUTHORIZED)` reads; the counter increment and the
RSA primitive do not touch it. -/
def Env.SigningFlagContract (E : Env W) : Prop :=
  (∀ o, E.ac_check_status E.AC_PSO_CDS_AUTHORIZED (E.reset_pso_cds o).ext = false) ∧
  (∀ o, E.ac_check_status E.AC_PSO_CDS_AUTHORIZED
      (E.gpg_do_increment_digital_signature_counter o).ext =
    E.ac_check_status E.AC_PSO_CDS_AUTHORIZED o.ext) ∧
  (∀ buf off len o, E.ac_check_status E.AC_PSO_CDS_AUTHORIZED
      (E.rsa_sign buf off len o).2.ext =
    E.ac_check_status E.AC_PSO_CDS_AUTHORIZED o.ext)

/-! ## Concrete commands and cards -/

/-- A Compute-Digital-Signature command of 43 bytes: header `00 2A 9E 9A`, the
3-byte extended length `00 00 23`, 35 bytes of digest info, one byte Le. -/
def cds_command : List Nat :=
  [0x00, 0x2A, 0x9E, 0x9A, 0x00, 0x00, 0x23] ++ List.replicate 35 0x11 ++ [0x00]

/-- A card with a private key, signing authorization set, and the first Password
Status byte `b0` (0: single-use signing authorization). -/
def Card.signing (b0 : Nat) : Card :=
  { Card.blank with
    simple := [(Card.NR_PW_STATUS, [b0, 127, 127, 127, 3, 3, 3])]
    pso_cds_authorized := true
    prvkey := [(1, List.replicate 20 0x01), (3, List.replicate 20 0x03)] }

/-- A Compute-Digital-Signature command of 8 bytes, a size the handler does not
accept. -/
def cds_short_command : List Nat := [0x00, 0x2A, 0x9E, 0x9A, 0x03, 0x01, 0x02, 0x03]

/-- Get Data for tag 0x0101. -/
def get_0101_command : List Nat := [0x00, 0xCA, 0x01, 0x01, 0x00]

/-- Put Data for tag 0x0102 with the 3-byte value `AA BB CC`. -/
def put_0102_command : List Nat := [0x00, 0xDA, 0x01, 0x02, 0x03, 0xAA, 0xBB, 0xCC]

/-- A card whose store holds a 10-byte object under tag 0x0101. -/
def Card.with_object : Card :=
  { Card.blank with objects := [(0x0101, [1, 2, 3, 4, 5, 6, 7, 8, 9, 10])] }

/-- The concrete card with a store whose re-encryption step fails: as `cardEnv`,
but `gpg_do_chks_prvkey` reports a failure and changes nothing. -/
def cardEnvChksFails : Env Card :=
  { cardEnv with gpg_do_chks_prvkey := fun _ _ _ _ _ o => (-1, o) }

/-- Change Reference Data for the administrator credential (P2 = 0x83): old
password `01 .. 08`, new password `0B .. 12`. -/
def change_pw3_command : List Nat :=
  [0x00, 0x24, 0x00, 0x83, 0x10, 1, 2, 3, 4, 5, 6, 7, 8, 11, 12, 13, 14, 15, 16, 17, 18]

/-- A card with the administrator password `01 .. 08` and a private key wrapped
under its Key String. -/
def Card.with_admin : Card :=
  { Card.blank with
    simple := [(Card.NR_PW_STATUS, [1, 127, 127, 127, 3, 3, 3]),
      (Card.NR_KEYSTRING_PW3, 8 :: Card.digest [1, 2, 3, 4, 5, 6, 7, 8] 0 8)]
    prvkey := [(1, List.replicate 20 0x01),
      (3, Card.digest [1, 2, 3, 4, 5, 6, 7, 8] 0 8)] }

/-- Reset Retry Counter by reset code (P1 = 0x00): reset code `01 .. 08`, new
password `09` eight times. -/
def reset_by_code_command : List Nat :=
  [0x00, 0x2C, 0x00, 0x81, 0x10, 1, 2, 3, 4, 5, 6, 7, 8, 9, 9, 9, 9, 9, 9, 9, 9]

/-- A card whose reset code is `01 .. 08` and whose reset-code retry counter
(Password Status byte 5) is 0, while the user's counter (byte 4) is 3. -/
def Card.rc_locked : Card :=
  { Card.blank with
    simple := [(Card.NR_PW_STATUS, [1, 127, 127, 127, 3, 0, 3]),
      (Card.NR_KEYSTRING_RC, 8 :: Card.digest [1, 2, 3, 4, 5, 6, 7, 8] 0 8)]
    prvkey := [(1, List.replicate 20 0x01),
      (2, Card.digest [1, 2, 3, 4, 5, 6, 7, 8] 0 8)] }

/-- Put Data for tag 0x0101 whose size is 305, so that `cmd_APDU_size - 5` is 300:
header, one length byte, two bytes of extended length `01 2A`, 298 bytes `77`. -/
def put_long_command : List Nat :=
  [0x00, 0xDA, 0x01, 0x01, 0x00, 0x01, 0x2A] ++ List.replicate 298 0x77

/-- Select File by DF name (P1 = 4) carrying the OpenPGP application identifier. -/
def select_aid_command : List Nat :=
  [0x00, 0xA4, 0x04, 0x00, 0x06, 0xD2, 0x76, 0x00, 0x01, 0x24, 0x01]

/-- Read Binary with offset byte 3. -/
def read_binary_command : List Nat := [0x00, 0xB0, 0x00, 0x03, 0x00]

/-- Select File by DF name (P1 = 4) carrying two bytes that are not the OpenPGP
application identifier. -/
def select_other_name_command : List Nat := [0x00, 0xA4, 0x04, 0x00, 0x02, 0x12, 0x34]

/-- An instruction byte that is not in the table `cmds`. -/
def unknown_ins_command : List Nat := [0x00, 0x84, 0x00, 0x00, 0x08]

/-- A Compute-Digital-Signature command of the accepted size 43 whose 2-byte length
field is `FF FF`, while 36 bytes follow the field. -/
def cds_bad_length_command : List Nat :=
  [0x00, 0x2A, 0x9E, 0x9A, 0x00, 0xFF, 0xFF] ++ List.replicate 36 0x11

/-- Reset Retry Counter by the administrator (P1 = 0x02, P2 = 0x81) with the 8-byte
new password `21 .. 28`: the length byte `cmd_APDU[4]` is 8. -/
def reset_by_admin_command : List Nat :=
  [0x00, 0x2C, 0x02, 0x81, 0x08, 0x21, 0x22, 0x23, 0x24, 0x25, 0x26, 0x27, 0x28]

/-- Change Reference Data for the user (P2 = 0x81) with Lc = 12: six bytes
`31 .. 36` followed by the new password `41 .. 46`. -/
def change_pw1_command : List Nat :=
  [0x00, 0x24, 0x00, 0x81, 0x0C, 0x31, 0x32, 0x33, 0x34, 0x35, 0x36,
    0x41, 0x42, 0x43, 0x44, 0x45, 0x46]

/-- A card with the user password `31 .. 36` and a private key wrapped under its
Key String. -/
def Card.with_user : Card :=
  { Card.blank with
    simple := [(Card.NR_PW_STATUS, [1, 127, 127, 127, 3, 3, 3]),
      (Card.NR_KEYSTRING_PW1, 6 :: Card.digest [0x31, 0x32, 0x33, 0x34, 0x35, 0x36] 0 6)]
    prvkey := [(1, Card.digest [0x31, 0x32, 0x33, 0x34, 0x35, 0x36] 0 6)] }

/-- The concrete card with a store whose re-encryption step reports a storage
fault: as `cardEnv`, but `gpg_do_chks_prvkey` returns -3 and changes nothing. -/
def cardEnvChksFault : Env Card :=
  { cardEnv with gpg_do_chks_prvkey := fun _ _ _ _ _ o => (-3, o) }

/-- A card with a private key and signing authorization on which no Password
Status is stored: `gpg_do_read_simple (GNUK_DO_PW_STATUS)` returns the null
pointer, the case `cmd_reset_user_password` tests for. -/
def Card.no_password_status : Card :=
  { Card.signing 1 with simple := [] }

/-! ## Basic facts -/

@[simp] theorem resp_trace (s : Machine W) (f : Out W → Out W) :
    (s.resp f).trace = s.trace := rfl

@[simp] theorem resp_out (s : Machine W) (f : Out W → Out W) :
    (s.resp f).out = f s.out := rfl

@[simp] theorem resp_file_selection (s : Machine W) (f : Out W → Out W) :
    (s.resp f).file_selection = s.file_selection := rfl

@[simp] theorem note_trace (s : Machine W) (c : Call) :
    (s.note c).trace = s.trace ++ [c] := rfl

@[simp] theorem note_out (s : Machine W) (c : Call) : (s.note c).out = s.out := rfl

@[simp] theorem note_file_selection (s : Machine W) (c : Call) :
    (s.note c).file_selection = s.file_selection := rfl

@[simp] theorem ext0_trace (s : Machine W) (c : Call) (f : Out W → Out W) :
    (s.ext0 c f).trace = s.trace ++ [c] := rfl

@[simp] theorem ext0_out (s : Machine W) (c : Call) (f : Out W → Out W) :
    (s.ext0 c f).out = f s.out := rfl

@[simp] theorem ext0_file_selection (s : Machine W) (c : Call) (f : Out W → Out W) :
    (s.ext0 c f).file_selection = s.file_selection := rfl

@[simp] theorem ext1_fst (s : Machine W) (c : Call) (f : Out W → Int × Out W) :
    (s.ext1 c f).1 = (f s.out).1 := rfl

@[simp] theorem ext1_trace (s : Machine W) (c : Call) (f : Out W → Int × Out W) :
    (s.ext1 c f).2.trace = s.trace ++ [c] := rfl

@[simp] theorem ext1_out (s : Machine W) (c : Call) (f : Out W → Int × Out W) :
    (s.ext1 c f).2.out = (f s.out).2 := rfl

@[simp] theorem ext1_file_selection (s : Machine W) (c : Call) (f : Out W → Int × Out W) :
    (s.ext1 c f).2.file_selection = s.file_selection := rfl

@[simp] theorem resp_cmd_APDU (s : Machine W) (f : Out W → Out W) :
    (s.resp f).cmd_APDU = s.cmd_APDU := rfl

@[simp] theorem note_cmd_APDU (s : Machine W) (c : Call) :
    (s.note c).cmd_APDU = s.cmd_APDU := rfl

@[simp] theorem ext0_cmd_APDU (s : Machine W) (c : Call) (f : Out W → Out W) :
    (s.ext0 c f).cmd_APDU = s.cmd_APDU := rfl

@[simp] theorem ext1_cmd_APDU (s : Machine W) (c : Call) (f : Out W → Int × Out W) :
    (s.ext1 c f).2.cmd_APDU = s.cmd_APDU := rfl

@[simp] theorem resp_cmd_APDU_size (s : Machine W) (f : Out W → Out W) :
    (s.resp f).cmd_APDU_size = s.cmd_APDU_size := rfl

@[simp] theorem note_cmd_APDU_size (s : Machine W) (c : Call) :
    (s.note c).cmd_APDU_size = s.cmd_APDU_size := rfl

@[simp] theorem ext0_cmd_APDU_size (s : Machine W) (c : Call) (f : Out W → Out W) :
    (s.ext0 c f).cmd_APDU_size = s.cmd_APDU_size := rfl

@[simp] theorem ext1_cmd_APDU_size (s : Machine W) (c : Call) (f : Out W → Int × Out W) :
    (s.ext1 c f).2.cmd_APDU_size = s.cmd_APDU_size := rfl

/-- The invocations since `s` of a state whose trace extends that of `s`. -/
theorem since_of_trace_eq (r s : Machine W) (l : List Call)
    (h : r.trace = s.trace ++ l) : r.since s = l := by
  simp [Machine.since, h]

/-- A Response written with no payload is the bare status word. -/
theorem write_res_apdu_zero_isStatus (p : List Nat) (sw : Nat × Nat) (o : Out W) :
    (write_res_apdu p 0 sw.1 sw.2 o).isStatus sw := by
  simp [write_res_apdu, Out.isStatus, poke]

@[simp] theorem write_res_apdu_ext (p : List Nat) (n a b : Nat) (o : Out W) :
    (write_res_apdu p n a b o).ext = o.ext := rfl

/-! ## Verify -/

/-- C10: `cmd_verify` runs exactly one credential check, on the bytes at offset 5
of the command with the length `cmd_APDU[4]`; the check is `verify_pso_cds` for
P2 = 0x81, `verify_pso_other` for P2 = 0x82 and `verify_admin` for every other P2.
The Response has no payload; its status is SecurityFailure when the check returned
a negative value, AuthBlocked when it returned 0 and Success when it returned a
positive value. The collaborator state is the one the check left. -/
theorem cmd_verify_one_check_tri_valued (E : Env W) (s : Machine W) :
    let Lc : Int := s.byte 4
    let chk : Call × (Int × Out W) :=
      if s.byte 3 = 0x81 then
        (Call.verify_pso_cds 5 Lc, E.verify_pso_cds s.cmd_APDU 5 Lc s.out)
      else if s.byte 3 = 0x82 then
        (Call.verify_pso_other 5 Lc, E.verify_pso_other s.cmd_APDU 5 Lc s.out)
      else (Call.verify_admin 5 Lc, E.verify_admin s.cmd_APDU 5 Lc s.out)
    (cmd_verify E s).trace = s.trace ++ [chk.1] ∧
    (cmd_verify E s).out.ext = chk.2.2.ext ∧
    (cmd_verify E s).out.isStatus
      (if chk.2.1 < 0 then E.SW_SECURITY_FAILURE
       else if chk.2.1 = 0 then E.SW_SECURITY_AUTH_BLOCKED
       else E.SW_SUCCESS) := by
  intro Lc chk
  simp only [cmd_verify, chk, Lc]
  split_ifs <;>
    simp_all [GPG_SECURITY_FAILURE, GPG_SECURITY_AUTH_BLOCKED, GPG_SUCCESS,
      write_res_apdu_zero_isStatus]

/-! ## Reset Retry Counter, administrator variant -/

/-- C9: when P1 is not 0x00 and administrator authorization is not set,
`cmd_reset_user_password` answers SecurityFailure with no payload. The only
collaborator it invokes is the authorization check: there is no re-wrap (no
`gpg_do_load_prvkey`, no `gpg_do_chks_prvkey`), no `gpg_do_write_simple` and no
`reset_pso_cds`; the collaborator state and the file selection are unchanged. -/
theorem cmd_reset_user_password_admin_unauthorized (E : Env W) (s : Machine W)
    (hp1 : s.byte 2 ≠ 0x00)
    (hadmin : E.ac_check_status E.AC_ADMIN_AUTHORIZED s.out.ext = false) :
    (cmd_reset_user_password E s).out.isStatus E.SW_SECURITY_FAILURE ∧
    (cmd_reset_user_password E s).trace =
      s.trace ++ [Call.ac_check_status E.AC_ADMIN_AUTHORIZED] ∧
    (cmd_reset_user_password E s).out.ext = s.out.ext ∧
    (cmd_reset_user_password E s).file_selection = s.file_selection := by
  simp [cmd_reset_user_password, hp1, hadmin, GPG_SECURITY_FAILURE,
    write_res_apdu_zero_isStatus]

/-- Witness for C9: an administrator-driven reset (P1 = 0x02) on a card whose
administrator authorization is not set. -/
theorem cmd_reset_user_password_admin_unauthorized_witness :
    (arrive [0x00, 0x2C, 0x02, 0x81, 0x06, 1, 2, 3, 4, 5, 6] FILE_DF_OPENPGP
        Card.blank).byte 2 ≠ 0x00 ∧
    (cmd_reset_user_password cardEnv
      (arrive [0x00, 0x2C, 0x02, 0x81, 0x06, 1, 2, 3, 4, 5, 6] FILE_DF_OPENPGP
        Card.blank)).out.isStatus (0x69, 0x82) ∧
    (cmd_reset_user_password cardEnv
      (arrive [0x00, 0x2C, 0x02, 0x81, 0x06, 1, 2, 3, 4, 5, 6] FILE_DF_OPENPGP
        Card.blank)).trace = [Call.ac_check_status 4] :=
  have h := cmd_reset_user_password_admin_unauthorized cardEnv
    (arrive [0x00, 0x2C, 0x02, 0x81, 0x06, 1, 2, 3, 4, 5, 6] FILE_DF_OPENPGP Card.blank)
    (by decide) (by decide)
  ⟨by decide, h.1, h.2.1⟩

/-! ## Compute Digital Signature -/

/-- Without signing authorization `cmd_pso` only checks the flag and answers
SecurityFailure. -/
theorem cmd_pso_unauthorized (E : Env W) (s : Machine W)
    (h2 : s.byte 2 = 0x9E) (h3 : s.byte 3 = 0x9A)
    (hauth : E.ac_check_status E.AC_PSO_CDS_AUTHORIZED s.out.ext = false) :
    cmd_pso E s = some ((s.note (Call.ac_check_status E.AC_PSO_CDS_AUTHORIZED)).resp
      (GPG_SECURITY_FAILURE E)) := by
  simp [cmd_pso, h2, h3, hauth]

/-- C6: for a Compute-Digital-Signature command (P1 P2 = 9E 9A), (1) when signing
authorization is not set, the Response is SecurityFailure with no payload, the
only collaborator invoked is the authorization check (so `rsa_sign` is not
invoked) and the collaborator state is unchanged; (2) when `rsa_sign` is invoked
(authorization set, size 43 or 44) and returns a negative value, the Response is
`69 85` with no payload and the collaborators invoked are the authorization check
and `rsa_sign`. In both cases neither the Signature Counter increment nor
`reset_pso_cds` is invoked; in case (1) the collaborator state is the one before
the command, in case (2) it is the one `rsa_sign` left, in which the flag still
reads true when `rsa_sign` does not touch it. -/
theorem cmd_pso_refused_or_failed (E : Env W) (s : Machine W)
    (h2 : s.byte 2 = 0x9E) (h3 : s.byte 3 = 0x9A) :
    (E.ac_check_status E.AC_PSO_CDS_AUTHORIZED s.out.ext = false →
      ∃ r, cmd_pso E s = some r ∧
        r.out.isStatus E.SW_SECURITY_FAILURE ∧
        r.trace = s.trace ++ [Call.ac_check_status E.AC_PSO_CDS_AUTHORIZED] ∧
        r.out.ext = s.out.ext) ∧
    (E.ac_check_status E.AC_PSO_CDS_AUTHORIZED s.out.ext = true →
      (s.cmd_APDU_size = 43 ∨ s.cmd_APDU_size = 44) →
      (E.rsa_sign s.cmd_APDU 7 (be16 (s.byte 5) (s.byte 6)) s.out).1 < 0 →
      ∃ r, cmd_pso E s = some r ∧
        r.out.isStatus (0x69, 0x85) ∧
        r.trace = s.trace ++ [Call.ac_check_status E.AC_PSO_CDS_AUTHORIZED,
          Call.rsa_sign 7 (be16 (s.byte 5) (s.byte 6))] ∧
        r.out.ext = (E.rsa_sign s.cmd_APDU 7 (be16 (s.byte 5) (s.byte 6)) s.out).2.ext ∧
        (E.SigningFlagContract →
          E.ac_check_status E.AC_PSO_CDS_AUTHORIZED r.out.ext = true)) := by
  constructor
  · intro hauth
    refine ⟨_, by simp [cmd_pso, h2, h3, hauth]; rfl, ?_, ?_, ?_⟩
    · simp [GPG_SECURITY_FAILURE, write_res_apdu_zero_isStatus]
    · simp
    · simp [GPG_SECURITY_FAILURE]
  · intro hauth hsize hneg
    have hs : ¬ (s.cmd_APDU_size ≠ 8 + 35 ∧ s.cmd_APDU_size ≠ 8 + 35 + 1) := by
      rcases hsize with h | h <;> simp [h]
    refine ⟨_, by simp only [cmd_pso, h2, h3, hauth, hs]; simp [hneg]; rfl, ?_, ?_, ?_, ?_⟩
    · exact write_res_apdu_zero_isStatus NULL (0x69, 0x85) _
    · simp
    · simp
    · intro hflag
      simp [hflag.2.2, hauth]

/-- Witness for C6: the 43-byte command on a card without signing authorization,
and on a card with signing authorization whose RSA primitive fails (no private
key). -/
theorem cmd_pso_refused_or_failed_witness :
    (∃ r, cmd_pso cardEnv (arrive cds_command FILE_DF_OPENPGP Card.blank) = some r ∧
      r.out.isStatus (0x69, 0x82) ∧ r.trace = [Call.ac_check_status 1]) ∧
    (∃ r, cmd_pso cardEnv (arrive cds_command FILE_DF_OPENPGP
        { Card.blank with pso_cds_authorized := true }) = some r ∧
      r.out.isStatus (0x69, 0x85) ∧
      r.trace = [Call.ac_check_status 1, Call.rsa_sign 7 35]) := by
  constructor
  · obtain ⟨r, h, hst, htr, _⟩ :=
      (cmd_pso_refused_or_failed cardEnv (arrive cds_command FILE_DF_OPENPGP Card.blank)
        (by decide) (by decide)).1 (by decide)
    exact ⟨r, h, hst, htr⟩
  · obtain ⟨r, h, hst, htr, _, _⟩ :=
      (cmd_pso_refused_or_failed cardEnv (arrive cds_command FILE_DF_OPENPGP
        { Card.blank with pso_cds_authorized := true })
        (by decide) (by decide)).2 (by decide) (Or.inl (by decide)) (by decide)
    exact ⟨r, h, hst, htr⟩

/-- C5 (the code departs from the claim): a Compute-Digital-Signature command
(P1 P2 = 9E 9A) of size 43 or 44, with signing authorization set and `rsa_sign`
returning a non-negative value, meets every condition of the claim; yet when no
Password Status is stored, `cmd_pso` reads `pw_status_bytes[0]` through the null
pointer that `gpg_do_read_simple` returned, before it reaches the Signature
Counter increment. The handler has no defined result there: it does not return
with the increment invoked once. `cmd_reset_user_password` tests the same pointer
for null before it reads through it. -/
theorem cmd_pso_no_password_status (E : Env W) (s : Machine W)
    (h2 : s.byte 2 = 0x9E) (h3 : s.byte 3 = 0x9A)
    (hsize : s.cmd_APDU_size = 43 ∨ s.cmd_APDU_size = 44)
    (hauth : E.ac_check_status E.AC_PSO_CDS_AUTHORIZED s.out.ext = true)
    (hsign : 0 ≤ (E.rsa_sign s.cmd_APDU 7 (be16 (s.byte 5) (s.byte 6)) s.out).1)
    (hpws : E.gpg_do_read_simple E.GNUK_DO_PW_STATUS
      (E.rsa_sign s.cmd_APDU 7 (be16 (s.byte 5) (s.byte 6)) s.out).2.ext = none) :
    cmd_pso E s = none := by
  have hs : ¬ (s.cmd_APDU_size ≠ 8 + 35 ∧ s.cmd_APDU_size ≠ 8 + 35 + 1) := by
    rcases hsize with h | h <;> simp [h]
  simp only [cmd_pso, h2, h3, hauth, hs]
  simp [not_lt.mpr hsign, hpws]

/-- Witness for C5: the 43-byte command on a card with a private key and signing
authorization but no Password Status. The command has an accepted size, signing
is authorized and `rsa_sign` returns 0; the handler, and with it the dispatcher,
has no result. -/
theorem cmd_pso_no_password_status_witness :
    (arrive cds_command FILE_DF_OPENPGP Card.no_password_status).cmd_APDU_size = 43 ∧
    cardEnv.ac_check_status cardEnv.AC_PSO_CDS_AUTHORIZED
      (arrive cds_command FILE_DF_OPENPGP Card.no_password_status).out.ext = true ∧
    (cardEnv.rsa_sign cds_command 7 35
      (arrive cds_command FILE_DF_OPENPGP Card.no_password_status).out).1 = 0 ∧
    cardEnv.gpg_do_read_simple cardEnv.GNUK_DO_PW_STATUS Card.no_password_status = none ∧
    cmd_pso cardEnv (arrive cds_command FILE_DF_OPENPGP Card.no_password_status) = none ∧
    process_command_apdu cardEnv
      (arrive cds_command FILE_DF_OPENPGP Card.no_password_status) = none := by
  have h := cmd_pso_no_password_status cardEnv
    (arrive cds_command FILE_DF_OPENPGP Card.no_password_status)
    (by decide) (by decide) (Or.inl (by decide)) (by decide) (by decide) (by decide)
  refine ⟨by decide, by decide, by decide, by decide, h, ?_⟩
  have hd : process_command_apdu cardEnv
      (arrive cds_command FILE_DF_OPENPGP Card.no_password_status) =
      cmd_pso cardEnv (arrive cds_command FILE_DF_OPENPGP Card.no_password_status) := by
    simp only [process_command_apdu]
    rfl
  rw [hd, h]

/-- With a Password Status stored (what C5 presupposes when it speaks of its first
byte): a Compute-Digital-Signature command (P1 P2 = 9E 9A) of size 43 or 44, with
signing authorization set, `rsa_sign` returning a non-negative value and a
Password Status `pws` stored, returns normally; the Signature Counter increment is
invoked exactly once (it is the last collaborator invoked, after the authorization
check, `rsa_sign` and the read of the Password Status); the response size is 258
and the bytes at offsets 256 and 257 are `90 00`. If the first Password Status
byte is 0, `reset_pso_cds` is invoked (once), the authorization check then reads
false, and a Compute-Digital-Signature command processed on the collaborator state
so left answers SecurityFailure; if that byte is not 0, `reset_pso_cds` is not
invoked and the authorization check still reads true. The collaborator state
at return is the one the increment left, run after `reset_pso_cds` (when invoked)
on the state `rsa_sign` left.
The response part relies on `reset_pso_cds` and the increment not writing the
response buffer, the flag part on `Env.SigningFlagContract`. -/
theorem cmd_pso_signature_success (E : Env W) (s : Machine W) (pws : List Nat)
    (h2 : s.byte 2 = 0x9E) (h3 : s.byte 3 = 0x9A)
    (hsize : s.cmd_APDU_size = 43 ∨ s.cmd_APDU_size = 44)
    (hauth : E.ac_check_status E.AC_PSO_CDS_AUTHORIZED s.out.ext = true)
    (hsign : 0 ≤ (E.rsa_sign s.cmd_APDU 7 (be16 (s.byte 5) (s.byte 6)) s.out).1)
    (hpws : E.gpg_do_read_simple E.GNUK_DO_PW_STATUS
      (E.rsa_sign s.cmd_APDU 7 (be16 (s.byte 5) (s.byte 6)) s.out).2.ext = some pws)
    (hreset : KeepsResponse E.reset_pso_cds)
    (hincr : KeepsResponse E.gpg_do_increment_digital_signature_counter)
    (hflag : E.SigningFlagContract) :
    ∃ r, cmd_pso E s = some r ∧
      r.trace = s.trace ++
        [Call.ac_check_status E.AC_PSO_CDS_AUTHORIZED,
          Call.rsa_sign 7 (be16 (s.byte 5) (s.byte 6)),
          Call.gpg_do_read_simple E.GNUK_DO_PW_STATUS] ++
        (if rd pws 0 = 0 then [Call.reset_pso_cds] else []) ++
        [Call.gpg_do_increment_digital_signature_counter] ∧
      r.out.res_APDU_size = 258 ∧
      r.out.res_APDU 256 = 0x90 ∧ r.out.res_APDU 257 = 0x00 ∧
      (rd pws 0 = 0 →
        E.ac_check_status E.AC_PSO_CDS_AUTHORIZED r.out.ext = false ∧
        ∀ s2 : Machine W, s2.out.ext = r.out.ext → s2.byte 2 = 0x9E → s2.byte 3 = 0x9A →
          ∃ r2, cmd_pso E s2 = some r2 ∧ r2.out.isStatus E.SW_SECURITY_FAILURE) ∧
      (rd pws 0 ≠ 0 → E.ac_check_status E.AC_PSO_CDS_AUTHORIZED r.out.ext = true) ∧
      r.out.ext =
        (E.gpg_do_increment_digital_signature_counter
          (if rd pws 0 = 0 then
            E.reset_pso_cds
              { res_APDU := poke (poke
                  (E.rsa_sign s.cmd_APDU 7 (be16 (s.byte 5) (s.byte 6)) s.out).2.res_APDU
                  RSA_SIGNATURE_LENGTH 0x90) (RSA_SIGNATURE_LENGTH + 1) 0x00
                res_APDU_size := RSA_SIGNATURE_LENGTH + 2
                ext := (E.rsa_sign s.cmd_APDU 7 (be16 (s.byte 5) (s.byte 6)) s.out).2.ext }
          else
            { res_APDU := poke (poke
                (E.rsa_sign s.cmd_APDU 7 (be16 (s.byte 5) (s.byte 6)) s.out).2.res_APDU
                RSA_SIGNATURE_LENGTH 0x90) (RSA_SIGNATURE_LENGTH + 1) 0x00
              res_APDU_size := RSA_SIGNATURE_LENGTH + 2
              ext := (E.rsa_sign s.cmd_APDU 7 (be16 (s.byte 5) (s.byte 6)) s.out).2.ext })).ext := by
  obtain ⟨hclear, hkeep_incr, hkeep_sign⟩ := hflag
  have hs : ¬ (s.cmd_APDU_size ≠ 8 + 35 ∧ s.cmd_APDU_size ≠ 8 + 35 + 1) := by
    rcases hsize with h | h <;> simp [h]
  have hnn : ¬ (E.rsa_sign s.cmd_APDU 7 (be16 (s.byte 5) (s.byte 6)) s.out).1 < 0 :=
    not_lt.mpr hsign
  have hrun : cmd_pso E s = some
      ((if rd pws 0 = 0 then
          (((s.note (Call.ac_check_status E.AC_PSO_CDS_AUTHORIZED)).ext1
              (Call.rsa_sign 7 (be16 (s.byte 5) (s.byte 6)))
              (E.rsa_sign s.cmd_APDU 7 (be16 (s.byte 5) (s.byte 6)))).2.note
            (Call.gpg_do_read_simple E.GNUK_DO_PW_STATUS)).resp (fun o =>
              { o with
                res_APDU := poke (poke o.res_APDU RSA_SIGNATURE_LENGTH 0x90)
                  (RSA_SIGNATURE_LENGTH + 1) 0x00
                res_APDU_size := RSA_SIGNATURE_LENGTH + 2 }) |>.ext0
            Call.reset_pso_cds E.reset_pso_cds
        else
          (((s.note (Call.ac_check_status E.AC_PSO_CDS_AUTHORIZED)).ext1
              (Call.rsa_sign 7 (be16 (s.byte 5) (s.byte 6)))
              (E.rsa_sign s.cmd_APDU 7 (be16 (s.byte 5) (s.byte 6)))).2.note
            (Call.gpg_do_read_simple E.GNUK_DO_PW_STATUS)).resp (fun o =>
              { o with
                res_APDU := poke (poke o.res_APDU RSA_SIGNATURE_LENGTH 0x90)
                  (RSA_SIGNATURE_LENGTH + 1) 0x00
                res_APDU_size := RSA_SIGNATURE_LENGTH + 2 })).ext0
        Call.gpg_do_increment_digital_signature_counter
        E.gpg_do_increment_digital_signature_counter) := by
    simp only [cmd_pso, h2, h3, hauth, hs]
    simp [hnn, hpws]
  refine ⟨_, hrun, ?_, ?_, ?_, ?_, ?_, ?_, ?_⟩
  · split_ifs <;> simp
  · split_ifs <;> simp [(hincr _).2, (hreset _).2, RSA_SIGNATURE_LENGTH]
  · split_ifs <;> simp [(hincr _).1, (hreset _).1, RSA_SIGNATURE_LENGTH, poke]
  · split_ifs <;> simp [(hincr _).1, (hreset _).1, RSA_SIGNATURE_LENGTH, poke]
  · intro h0
    rw [if_pos h0]
    refine ⟨by simp [hkeep_incr, hclear], ?_⟩
    intro s2 hext p2 p3
    have hoff : E.ac_check_status E.AC_PSO_CDS_AUTHORIZED s2.out.ext = false := by
      rw [hext]
      simp [hkeep_incr, hclear]
    refine ⟨_, cmd_pso_unauthorized E s2 p2 p3 hoff, ?_⟩
    simp [GPG_SECURITY_FAILURE, write_res_apdu_zero_isStatus]
  · intro h0
    simp [h0, hkeep_incr, hkeep_sign, hauth]
  · split_ifs <;> rfl

/-- On the concrete card `reset_pso_cds` and the counter increment do not write the
response buffer. -/
theorem cardEnv_keeps_response :
    KeepsResponse cardEnv.reset_pso_cds ∧
    KeepsResponse cardEnv.gpg_do_increment_digital_signature_counter :=
  ⟨fun _ => ⟨rfl, rfl⟩, fun _ => ⟨rfl, rfl⟩⟩

/-- The concrete card meets the contract of the signing-authorization flag. -/
theorem cardEnv_signing_flag_contract : cardEnv.SigningFlagContract := by
  refine ⟨fun _ => rfl, fun _ => rfl, fun buf off len o => ?_⟩
  simp only [cardEnv]
  split_ifs <;> rfl

/-- The signature on the concrete card: the 43-byte command on a card with a
private key and signing authorization, once with single-use authorization (first Password Status byte 0)
and once with persistent authorization (first byte 1). -/
theorem cmd_pso_signature_success_witness :
    (∃ r, cmd_pso cardEnv (arrive cds_command FILE_DF_OPENPGP (Card.signing 0)) = some r ∧
      r.trace = [Call.ac_check_status 1, Call.rsa_sign 7 35, Call.gpg_do_read_simple 0,
        Call.reset_pso_cds, Call.gpg_do_increment_digital_signature_counter] ∧
      r.out.res_APDU_size = 258 ∧ r.out.res_APDU 256 = 0x90 ∧ r.out.res_APDU 257 = 0x00 ∧
      cardEnv.ac_check_status 1 r.out.ext = false) ∧
    (∃ r, cmd_pso cardEnv (arrive cds_command FILE_DF_OPENPGP (Card.signing 1)) = some r ∧
      r.trace = [Call.ac_check_status 1, Call.rsa_sign 7 35, Call.gpg_do_read_simple 0,
        Call.gpg_do_increment_digital_signature_counter] ∧
      r.out.res_APDU_size = 258 ∧ r.out.res_APDU 256 = 0x90 ∧ r.out.res_APDU 257 = 0x00 ∧
      cardEnv.ac_check_status 1 r.out.ext = true) := by
  constructor
  · obtain ⟨r, h, htr, hsz, h256, h257, hsingle, _⟩ :=
      cmd_pso_signature_success cardEnv
        (arrive cds_command FILE_DF_OPENPGP (Card.signing 0)) [0, 127, 127, 127, 3, 3, 3]
        (by decide) (by decide) (Or.inl (by decide)) (by decide) (by decide) (by decide)
        cardEnv_keeps_response.1 cardEnv_keeps_response.2 cardEnv_signing_flag_contract
    exact ⟨r, h, htr, hsz, h256, h257, (hsingle (by decide)).1⟩
  · obtain ⟨r, h, htr, hsz, h256, h257, _, hpersist, _⟩ :=
      cmd_pso_signature_success cardEnv
        (arrive cds_command FILE_DF_OPENPGP (Card.signing 1)) [1, 127, 127, 127, 3, 3, 3]
        (by decide) (by decide) (Or.inl (by decide)) (by decide) (by decide) (by decide)
        cardEnv_keeps_response.1 cardEnv_keeps_response.2 cardEnv_signing_flag_contract
    exact ⟨r, h, htr, hsz, h256, h257, hpersist (by decide)⟩

/-! ## Dispatcher: a command that is left unanswered -/

/-- C1 (the code departs from the claim): a Compute-Digital-Signature command
(INS 0x2A, P1 P2 = 9E 9A) with signing authorization set whose size is neither 43
nor 44 is dispatched to `cmd_pso`, which returns without writing a Response: the
response buffer and `res_APDU_size` are what they were before the command, and the
only collaborator invoked is the authorization check. -/
theorem process_command_apdu_cds_wrong_size (E : Env W) (s : Machine W)
    (h1 : s.byte 1 = 0x2A) (h2 : s.byte 2 = 0x9E) (h3 : s.byte 3 = 0x9A)
    (hauth : E.ac_check_status E.AC_PSO_CDS_AUTHORIZED s.out.ext = true)
    (hsize : s.cmd_APDU_size ≠ 43 ∧ s.cmd_APDU_size ≠ 44) :
    ∃ r, process_command_apdu E s = some r ∧
      r.out = s.out ∧
      r.trace = s.trace ++ [Call.ac_check_status E.AC_PSO_CDS_AUTHORIZED] := by
  refine ⟨s.note (Call.ac_check_status E.AC_PSO_CDS_AUTHORIZED), ?_, rfl, rfl⟩
  have hi : search_cmds 0x2A cmds 0 = 2 := by decide
  have hg : cmds.get? 2 = some (INS_PSO, Handler.cmd_pso) := by decide
  have hn : (2 : Nat) < NUM_CMDS := by decide
  simp only [process_command_apdu, h1, hi, hg, hn, if_true, Handler.run]
  simp [cmd_pso, h2, h3, hauth, hsize.1, hsize.2]

/-- Witness for C1: the 8-byte command `00 2A 9E 9A 03 01 02 03` on a card with
signing authorization. After `process_command_apdu` the response size is still the
77 of the earlier Response and the buffer still holds its bytes. -/
theorem process_command_apdu_cds_wrong_size_witness :
    ∃ r, process_command_apdu cardEnv
        (arrive cds_short_command FILE_DF_OPENPGP (Card.signing 1)) = some r ∧
      r.out.res_APDU_size = 77 ∧ r.out.res_APDU 0 = 0xEE ∧ r.out.res_APDU 1 = 0xEE ∧
      r.trace = [Call.ac_check_status 1] := by
  obtain ⟨r, h, hout, htr⟩ := process_command_apdu_cds_wrong_size cardEnv
    (arrive cds_short_command FILE_DF_OPENPGP (Card.signing 1))
    (by decide) (by decide) (by decide) (by decide) (by decide)
  exact ⟨r, h, by rw [hout]; rfl, by rw [hout]; rfl, by rw [hout]; rfl, htr⟩

/-! ## Get Data and Put Data outside the OpenPGP application -/

/-- C2 (the code departs from the claim): when file selection is not
OpenPGP-Application, `cmd_get_data` and `cmd_put_data` write NoRecord and then go
on to the store; the Response in place when the handler returns is the one the
store's `gpg_do_get_data` (`gpg_do_put_data`) left. -/
theorem cmd_get_put_data_not_selected_response (E : Env W) (s : Machine W)
    (hfs : s.file_selection ≠ FILE_DF_OPENPGP) :
    (cmd_get_data E s).out = E.gpg_do_get_data s.tag (GPG_NO_RECORD E s.out) ∧
    (cmd_put_data E s).out =
      E.gpg_do_put_data s.tag s.cmd_APDU
        (if s.cmd_APDU_size - 5 ≥ 256 then 5 + 2 else 5)
        (if s.cmd_APDU_size - 5 ≥ 256 then s.cmd_APDU_size - 5 - 2 else s.cmd_APDU_size - 5)
        (GPG_NO_RECORD E s.out) := by
  simp [cmd_get_data, cmd_put_data, hfs]

/-- Witness for C2: with no file selected, Get Data for a stored tag answers the
10 stored bytes and `90 00` (size 12), and Put Data answers Success; neither
Response is NoRecord. -/
theorem cmd_get_put_data_not_selected_response_witness :
    (arrive get_0101_command FILE_NONE Card.with_object).file_selection ≠ FILE_DF_OPENPGP ∧
    (cmd_get_data cardEnv (arrive get_0101_command FILE_NONE Card.with_object)).out.res_APDU_size
      = 12 ∧
    (cmd_get_data cardEnv (arrive get_0101_command FILE_NONE Card.with_object)).out.res_APDU 10
      = 0x90 ∧
    (cmd_get_data cardEnv (arrive get_0101_command FILE_NONE Card.with_object)).out.res_APDU 11
      = 0x00 ∧
    ¬ (cmd_get_data cardEnv
      (arrive get_0101_command FILE_NONE Card.with_object)).out.isStatus cardEnv.SW_NO_RECORD ∧
    (cmd_put_data cardEnv
      (arrive put_0102_command FILE_NONE Card.blank)).out.isStatus cardEnv.SW_SUCCESS ∧
    ¬ (cmd_put_data cardEnv
      (arrive put_0102_command FILE_NONE Card.blank)).out.isStatus cardEnv.SW_NO_RECORD := by
  have hg := (cmd_get_put_data_not_selected_response cardEnv
    (arrive get_0101_command FILE_NONE Card.with_object) (by decide)).1
  have hp := (cmd_get_put_data_not_selected_response cardEnv
    (arrive put_0102_command FILE_NONE Card.blank) (by decide)).2
  rw [hg, hp]
  decide

/-- C3 (the code departs from the claim): when file selection is not
OpenPGP-Application, `cmd_put_data` still invokes the store's `gpg_do_put_data`
(once, with the tag and value of the command) and `cmd_get_data` still invokes
`gpg_do_get_data`; the collaborator state after Put Data is the one the store's
write left. -/
theorem cmd_put_get_data_not_selected_invokes_store (E : Env W) (s : Machine W)
    (hfs : s.file_selection ≠ FILE_DF_OPENPGP) :
    (cmd_put_data E s).since s =
      [Call.gpg_do_put_data s.tag
        (if s.cmd_APDU_size - 5 ≥ 256 then 5 + 2 else 5)
        (if s.cmd_APDU_size - 5 ≥ 256 then s.cmd_APDU_size - 5 - 2 else s.cmd_APDU_size - 5)] ∧
    (cmd_put_data E s).out.ext =
      (E.gpg_do_put_data s.tag s.cmd_APDU
        (if s.cmd_APDU_size - 5 ≥ 256 then 5 + 2 else 5)
        (if s.cmd_APDU_size - 5 ≥ 256 then s.cmd_APDU_size - 5 - 2 else s.cmd_APDU_size - 5)
        (GPG_NO_RECORD E s.out)).ext ∧
    (cmd_get_data E s).since s = [Call.gpg_do_get_data s.tag] := by
  simp [cmd_get_data, cmd_put_data, hfs, Machine.since]

/-- Witness for C3: with no file selected, Put Data for tag 0x0102 invokes the
store and the store then holds the new object; Get Data invokes the store's
read. -/
theorem cmd_put_get_data_not_selected_invokes_store_witness :
    (arrive put_0102_command FILE_NONE Card.blank).file_selection ≠ FILE_DF_OPENPGP ∧
    (cmd_put_data cardEnv (arrive put_0102_command FILE_NONE Card.blank)).since
      (arrive put_0102_command FILE_NONE Card.blank) = [Call.gpg_do_put_data 0x0102 5 3] ∧
    (arrive put_0102_command FILE_NONE Card.blank).out.ext.objects = [] ∧
    (cmd_put_data cardEnv (arrive put_0102_command FILE_NONE Card.blank)).out.ext.objects =
      [(0x0102, [0xAA, 0xBB, 0xCC])] ∧
    (cmd_get_data cardEnv (arrive get_0101_command FILE_NONE Card.with_object)).since
      (arrive get_0101_command FILE_NONE Card.with_object) = [Call.gpg_do_get_data 0x0101] := by
  have hp := cmd_put_get_data_not_selected_invokes_store cardEnv
    (arrive put_0102_command FILE_NONE Card.blank) (by decide)
  have hg := cmd_put_get_data_not_selected_invokes_store cardEnv
    (arrive get_0101_command FILE_NONE Card.with_object) (by decide)
  refine ⟨by decide, ?_, rfl, ?_, ?_⟩
  · rw [hp.1]; decide
  · rw [hp.2.1]; decide
  · rw [hg.2.2]; decide

/-! ## Change Reference Data -/

/-- For the user credential (P2 = 0x81) with a PW1 Key String stored, a re-wrap
that returns a negative value leaves nothing persisted: no invocation of the
command is `gpg_do_write_simple`, `gpg_set_pw3` or `reset_pso_cds`, and the
Response is MemoryFailure for a result below -2 and SecurityFailure otherwise. -/
theorem cmd_change_password_user_rewrap_fails (E : Env W) (s : Machine W)
    (pk : List Nat) (hp2 : s.byte 3 = 0x81)
    (hpk : E.gpg_do_read_simple E.GNUK_DO_KEYSTRING_PW1 s.out.ext = some pk)
    (hneg : (gpg_change_keystring E 1 (E.sha1 s.cmd_APDU 5 (rd pk 0)) 1
      (E.sha1 s.cmd_APDU (5 + (rd pk 0 : Int)) ((s.byte 4 : Int) - (rd pk 0 : Int)))
      (((s.note (Call.gpg_do_read_simple E.GNUK_DO_KEYSTRING_PW1)).note
        (Call.sha1 5 (rd pk 0))).note
        (Call.sha1 (5 + (rd pk 0 : Int)) ((s.byte 4 : Int) - (rd pk 0 : Int))))).1 < 0) :
    (∀ c ∈ (cmd_change_password E s).since s, c.persists = false) ∧
    (cmd_change_password E s).out.isStatus
      (if (gpg_change_keystring E 1 (E.sha1 s.cmd_APDU 5 (rd pk 0)) 1
          (E.sha1 s.cmd_APDU (5 + (rd pk 0 : Int)) ((s.byte 4 : Int) - (rd pk 0 : Int)))
          (((s.note (Call.gpg_do_read_simple E.GNUK_DO_KEYSTRING_PW1)).note
            (Call.sha1 5 (rd pk 0))).note
            (Call.sha1 (5 + (rd pk 0 : Int)) ((s.byte 4 : Int) - (rd pk 0 : Int))))).1 < -2
        then E.SW_MEMORY_FAILURE else E.SW_SECURITY_FAILURE) := by
  have hwho : ((s.byte 3 : Nat) : Int) - 0x80 = 1 := by omega
  simp only [cmd_change_password, hwho, if_true, hpk, cmd_change_password_rewrap,
    note_cmd_APDU, note_out]
  split_ifs with h1
  · refine ⟨?_, by simp [GPG_MEMORY_FAILURE, write_res_apdu_zero_isStatus]⟩
    simp only [gpg_change_keystring]
    split_ifs <;> simp [Machine.since, Call.persists]
  · refine ⟨?_, by simp [GPG_SECURITY_FAILURE, write_res_apdu_zero_isStatus]⟩
    simp only [gpg_change_keystring]
    split_ifs <;> simp [Machine.since, Call.persists]

/-- C4 (the code departs from the claim): for the administrator credential (P2
other than 0x81), once `verify_admin_0` has returned a positive length `pw_len`,
`cmd_change_password` invokes `gpg_set_pw3` on the new password before the re-wrap
starts: the invocations of the command begin with `verify_admin_0`, `gpg_set_pw3`,
the two digests and the load step of `gpg_change_keystring`, whatever the re-wrap
returns. -/
theorem cmd_change_password_admin_sets_pw3_first (E : Env W) (s : Machine W)
    (pw_len : Int) (hp2 : s.byte 3 ≠ 0x81)
    (hv : (E.verify_admin_0 s.cmd_APDU 5 (s.byte 4) (-1) s.out).1 = pw_len)
    (hpos : 0 < pw_len) :
    ∃ rest, (cmd_change_password E s).since s =
      [Call.verify_admin_0 5 (s.byte 4) (-1),
        Call.gpg_set_pw3 (5 + pw_len) ((s.byte 4 : Int) - pw_len),
        Call.sha1 5 pw_len,
        Call.sha1 (5 + pw_len) ((s.byte 4 : Int) - pw_len),
        Call.gpg_do_load_prvkey E.GPG_KEY_FOR_SIGNATURE ((s.byte 3 : Int) - 0x80)
          (E.sha1 s.cmd_APDU 5 pw_len)] ++ rest := by
  have hwho : ¬ ((s.byte 3 : Int) - 0x80 = 1) := by omega
  have h1 : ¬ pw_len < 0 := by omega
  have h2 : ¬ pw_len = 0 := by omega
  simp only [cmd_change_password, hwho, if_false, ext1_fst, hv, h1, h2,
    cmd_change_password_rewrap, gpg_change_keystring, cmd_change_password_no_prvkey]
  split_ifs <;> simp [Machine.since]

/-- Witness for C4: the administrator changes the password on a card whose
re-encryption step fails. The re-wrap returns -2 and the Response is
SecurityFailure, yet `gpg_set_pw3` has been invoked: the stored PW3 Key String is
now that of the new password, while the private key is still wrapped under the
old one. -/
theorem cmd_change_password_admin_sets_pw3_first_witness :
    (∃ rest, (cmd_change_password cardEnvChksFails
        (arrive change_pw3_command FILE_DF_OPENPGP Card.with_admin)).since
        (arrive change_pw3_command FILE_DF_OPENPGP Card.with_admin) =
      [Call.verify_admin_0 5 16 (-1), Call.gpg_set_pw3 13 8, Call.sha1 5 8, Call.sha1 13 8,
        Call.gpg_do_load_prvkey 0 3 (Card.digest change_pw3_command 5 8)] ++ rest) ∧
    (cmd_change_password cardEnvChksFails
      (arrive change_pw3_command FILE_DF_OPENPGP Card.with_admin)).out.isStatus (0x69, 0x82) ∧
    (cmd_change_password cardEnvChksFails
      (arrive change_pw3_command FILE_DF_OPENPGP Card.with_admin)).out.ext.simple.lookup
        Card.NR_KEYSTRING_PW3 = some (8 :: Card.digest change_pw3_command 13 8) ∧
    Card.with_admin.simple.lookup Card.NR_KEYSTRING_PW3 =
      some (8 :: Card.digest change_pw3_command 5 8) ∧
    (cmd_change_password cardEnvChksFails
      (arrive change_pw3_command FILE_DF_OPENPGP Card.with_admin)).out.ext.prvkey =
        Card.with_admin.prvkey :=
  ⟨cmd_change_password_admin_sets_pw3_first cardEnvChksFails
      (arrive change_pw3_command FILE_DF_OPENPGP Card.with_admin) 8
      (by decide) (by decide) (by decide),
    by decide, by decide, by decide, by decide⟩

/-! ## Reset Retry Counter by reset code -/

/-- C7 (the code departs from the claim): the lock test of the reset-by-code
branch reads the Password Status byte `PW_STATUS_PW1`, not `PW_STATUS_RC`. With a
Password Status `pws` and a reset-code Key String `ks` stored: when the PW1 byte
is 0 the command is refused with AuthBlocked after the two reads; when the PW1
byte is not 0 the handler goes on to the digests and the load step of the re-wrap,
whatever the reset-code counter `rd pws E.PW_STATUS_RC` is. -/
theorem cmd_reset_user_password_lock_test (E : Env W) (s : Machine W)
    (pws ks : List Nat) (hp1 : s.byte 2 = 0x00)
    (hpws : E.gpg_do_read_simple E.GNUK_DO_PW_STATUS s.out.ext = some pws)
    (hks : E.gpg_do_read_simple E.GNUK_DO_KEYSTRING_RC s.out.ext = some ks) :
    (rd pws E.PW_STATUS_PW1 = 0 →
      (cmd_reset_user_password E s).out.isStatus E.SW_SECURITY_AUTH_BLOCKED ∧
      (cmd_reset_user_password E s).since s =
        [Call.gpg_do_read_simple E.GNUK_DO_PW_STATUS,
          Call.gpg_do_read_simple E.GNUK_DO_KEYSTRING_RC]) ∧
    (rd pws E.PW_STATUS_PW1 ≠ 0 →
      ∃ rest, (cmd_reset_user_password E s).since s =
        [Call.gpg_do_read_simple E.GNUK_DO_PW_STATUS,
          Call.gpg_do_read_simple E.GNUK_DO_KEYSTRING_RC,
          Call.sha1 4 (rd ks 0),
          Call.sha1 (4 + (rd ks 0 : Int)) ((s.byte 3 : Int) - (rd ks 0 : Int)),
          Call.gpg_do_load_prvkey E.GPG_KEY_FOR_SIGNATURE 2
            (E.sha1 s.cmd_APDU 4 (rd ks 0))] ++ rest) := by
  constructor
  · intro h0
    simp [cmd_reset_user_password, hp1, hpws, hks, h0, Machine.since,
      GPG_SECURITY_AUTH_BLOCKED, write_res_apdu_zero_isStatus]
  · intro h0
    simp only [cmd_reset_user_password, hp1, if_true, note_out, hpws, hks, h0, if_false,
      gpg_change_keystring, cmd_reset_user_password_sec_fail]
    split_ifs <;> simp [Machine.since]

/-- Witness for C7: the reset-code counter of the card is 0 (Locked) and the
command carries the right reset code; the handler does not answer AuthBlocked but
reads on, attempts the re-wrap, writes the Password Status and answers
SecurityFailure. -/
theorem cmd_reset_user_password_lock_test_witness :
    rd [1, 127, 127, 127, 3, 0, 3] cardEnv.PW_STATUS_RC = 0 ∧
    (∃ rest, (cmd_reset_user_password cardEnv
        (arrive reset_by_code_command FILE_DF_OPENPGP Card.rc_locked)).since
        (arrive reset_by_code_command FILE_DF_OPENPGP Card.rc_locked) =
      [Call.gpg_do_read_simple 0, Call.gpg_do_read_simple 2, Call.sha1 4 8, Call.sha1 12 121,
        Call.gpg_do_load_prvkey 0 2 (Card.digest reset_by_code_command 4 8)] ++ rest) ∧
    ¬ (cmd_reset_user_password cardEnv
      (arrive reset_by_code_command FILE_DF_OPENPGP Card.rc_locked)).out.isStatus
        cardEnv.SW_SECURITY_AUTH_BLOCKED ∧
    (cmd_reset_user_password cardEnv
      (arrive reset_by_code_command FILE_DF_OPENPGP Card.rc_locked)).out.ext.simple ≠
        Card.rc_locked.simple :=
  ⟨by decide,
    (cmd_reset_user_password_lock_test cardEnv
      (arrive reset_by_code_command FILE_DF_OPENPGP Card.rc_locked)
      [1, 127, 127, 127, 3, 0, 3] (8 :: Card.digest [1, 2, 3, 4, 5, 6, 7, 8] 0 8)
      (by decide) (by decide) (by decide)).2 (by decide),
    by decide, by decide⟩

/-- A byte read after a store into an array. -/
theorem rd_set (l : List Nat) (i j v : Nat) :
    rd (l.set i v) j = if j = i ∧ i < l.length then v % 256 else rd l j := by
  unfold rd
  by_cases h : j = i
  · subst h
    by_cases hl : j < l.length
    · simp [hl, List.getD_eq_getElem?_getD]
    · simp [hl, List.getD_eq_getElem?_getD]
      rw [List.set_eq_of_length_le (by omega)]
  · have h' : i ≠ j := fun e => h e.symm
    simp [h, h', List.getD_eq_getElem?_getD, List.getElem?_set_ne h']

/-- A byte read from the copy `memcpy (pwsb, pw_status_bytes, n)`. -/
theorem rd_map_range (pws : List Nat) (n i : Nat) :
    rd ((List.range n).map fun k => rd pws k) i = if i < n then rd pws i else 0 := by
  unfold rd
  by_cases h : i < n
  · simp [h, List.getD_eq_getElem?_getD]
  · have hn : (List.range n)[i]? = none := by
      apply List.getElem?_eq_none
      simp
      omega
    simp [h, List.getD_eq_getElem?_getD, hn]

/-- C8 (the code departs from the claim): when the reset-by-code branch ends in
SecurityFailure because the load step of the re-wrap returned -1 or -2, or
returned 0 with a reset code that does not match, the Password Status written
back is the copy of the old one whose reset-code counter is the old value minus
one reduced modulo 256: every other byte keeps its value, and an old counter of 0
is written back as 255. -/
theorem cmd_reset_user_password_sec_fail_counter (E : Env W) (s : Machine W)
    (pws ks : List Nat) (r : Int) (hp1 : s.byte 2 = 0x00)
    (hpws : E.gpg_do_read_simple E.GNUK_DO_PW_STATUS s.out.ext = some pws)
    (hks : E.gpg_do_read_simple E.GNUK_DO_KEYSTRING_RC s.out.ext = some ks)
    (hpw1 : rd pws E.PW_STATUS_PW1 ≠ 0)
    (hload : (E.gpg_do_load_prvkey E.GPG_KEY_FOR_SIGNATURE 2
      (E.sha1 s.cmd_APDU 4 (rd ks 0)) s.out).1 = r)
    (hr : (-2 ≤ r ∧ r < 0) ∨
      (r = 0 ∧ memcmp_eq (ks.drop 1) (E.sha1 s.cmd_APDU 4 (rd ks 0))
        E.KEYSTRING_MD_SIZE = false))
    (hrc : E.PW_STATUS_RC < E.SIZE_PW_STATUS_BYTES) :
    ∃ pwsb : List Nat,
      (cmd_reset_user_password E s).since s =
        [Call.gpg_do_read_simple E.GNUK_DO_PW_STATUS,
          Call.gpg_do_read_simple E.GNUK_DO_KEYSTRING_RC,
          Call.sha1 4 (rd ks 0),
          Call.sha1 (4 + (rd ks 0 : Int)) ((s.byte 3 : Int) - (rd ks 0 : Int)),
          Call.gpg_do_load_prvkey E.GPG_KEY_FOR_SIGNATURE 2 (E.sha1 s.cmd_APDU 4 (rd ks 0)),
          Call.gpg_do_write_simple E.GNUK_DO_PW_STATUS pwsb E.SIZE_PW_STATUS_BYTES] ∧
      (cmd_reset_user_password E s).out.isStatus E.SW_SECURITY_FAILURE ∧
      rd pwsb E.PW_STATUS_RC = u8 ((rd pws E.PW_STATUS_RC : Int) - 1) ∧
      (rd pws E.PW_STATUS_RC = 0 → rd pwsb E.PW_STATUS_RC = 255) ∧
      (∀ i, i < E.SIZE_PW_STATUS_BYTES → i ≠ E.PW_STATUS_RC → rd pwsb i = rd pws i) := by
  have hlt : rd pws E.PW_STATUS_RC < 256 := by unfold rd; omega
  have hu : u8 ((rd pws E.PW_STATUS_RC : Int) - 1) % 256 =
      u8 ((rd pws E.PW_STATUS_RC : Int) - 1) := by
    unfold u8; omega
  refine ⟨((List.range E.SIZE_PW_STATUS_BYTES).map fun i => rd pws i).set E.PW_STATUS_RC
    (u8 ((rd ((List.range E.SIZE_PW_STATUS_BYTES).map fun i => rd pws i)
      E.PW_STATUS_RC : Int) - 1)), ?_, ?_, ?_, ?_, ?_⟩
  · apply since_of_trace_eq
    rcases hr with ⟨hr1, hr2⟩ | ⟨hr1, hr2⟩
    · have hle : r ≤ 0 := by omega
      have hn2 : ¬ r < -2 := by omega
      simp [cmd_reset_user_password, hp1, hpws, hks, hpw1, gpg_change_keystring, hload,
        hle, hn2, hr2, cmd_reset_user_password_sec_fail]
    · subst hr1
      simp only [List.drop_one] at hr2
      simp [cmd_reset_user_password, hp1, hpws, hks, hpw1, gpg_change_keystring, hload,
        hr2, cmd_reset_user_password_sec_fail]
  · rcases hr with ⟨hr1, hr2⟩ | ⟨hr1, hr2⟩
    · have hle : r ≤ 0 := by omega
      have hn2 : ¬ r < -2 := by omega
      simp [cmd_reset_user_password, hp1, hpws, hks, hpw1, gpg_change_keystring, hload,
        hle, hn2, hr2, cmd_reset_user_password_sec_fail, GPG_SECURITY_FAILURE,
        write_res_apdu_zero_isStatus]
    · subst hr1
      simp only [List.drop_one] at hr2
      simp [cmd_reset_user_password, hp1, hpws, hks, hpw1, gpg_change_keystring, hload,
        hr2, cmd_reset_user_password_sec_fail, GPG_SECURITY_FAILURE,
        write_res_apdu_zero_isStatus]
  · simp [rd_set, rd_map_range, hrc, hu]
  · intro h0
    simp [rd_set, rd_map_range, hrc, h0]
    decide
  · intro i hi hne
    simp [rd_set, rd_map_range, hi, hne]

/-- Witness for C8: on the card whose reset-code counter is 0 the command ends in
SecurityFailure and the Password Status written back is `01 7F 7F 7F 03 FF 03`:
the reset-code counter went from 0 to 255. -/
theorem cmd_reset_user_password_sec_fail_counter_witness :
    (∃ pwsb : List Nat,
      (cmd_reset_user_password cardEnv
        (arrive reset_by_code_command FILE_DF_OPENPGP Card.rc_locked)).since
        (arrive reset_by_code_command FILE_DF_OPENPGP Card.rc_locked) =
        [Call.gpg_do_read_simple 0, Call.gpg_do_read_simple 2, Call.sha1 4 8,
          Call.sha1 12 121,
          Call.gpg_do_load_prvkey 0 2 (Card.digest reset_by_code_command 4 8),
          Call.gpg_do_write_simple 0 pwsb 7] ∧
      rd pwsb 5 = 255) ∧
    (cmd_reset_user_password cardEnv
      (arrive reset_by_code_command FILE_DF_OPENPGP Card.rc_locked)).out.ext.simple.lookup
        Card.NR_PW_STATUS = some [1, 127, 127, 127, 3, 255, 3] ∧
    Card.rc_locked.simple.lookup Card.NR_PW_STATUS = some [1, 127, 127, 127, 3, 0, 3] := by
  obtain ⟨pwsb, htr, _, _, h255, _⟩ := cmd_reset_user_password_sec_fail_counter cardEnv
    (arrive reset_by_code_command FILE_DF_OPENPGP Card.rc_locked)
    [1, 127, 127, 127, 3, 0, 3] (8 :: Card.digest [1, 2, 3, 4, 5, 6, 7, 8] 0 8) (-1)
    (by decide) (by decide) (by decide) (by decide) (by decide)
    (Or.inl (by decide)) (by decide)
  exact ⟨⟨pwsb, htr, h255 (by decide)⟩, by decide, by decide⟩

/-! ## Put Data inside the OpenPGP application -/

/-- The C expression `(hi << 8) | lo` is `hi * 256 + lo` when `lo` is a byte. -/
theorem be16_eq (hi lo : Nat) (hlo : lo < 256) : be16 hi lo = hi * 256 + lo := by
  unfold be16
  have h := Nat.mul_add_lt_is_or (show lo < 2 ^ 8 by simpa using hlo) hi
  rw [Nat.shiftLeft_eq, Nat.mul_comm, ← h]

/-- A byte read is below 256. -/
theorem rd_lt (buf : List Nat) (i : Nat) : rd buf i < 256 := by
  unfold rd
  omega

/-- The tag of a command is `P1 * 256 + P2`. -/
theorem tag_eq (s : Machine W) : s.tag = s.byte 2 * 256 + s.byte 3 := by
  have h2 : s.byte 2 < 256 := rd_lt _ _
  have h3 : s.byte 3 < 256 := rd_lt _ _
  unfold Machine.tag
  rw [be16_eq _ _ h3]
  omega

/-- C11: with OpenPGP-Application selected, `cmd_put_data` on a command of size `n`
invokes the store's `gpg_do_put_data` exactly once and writes no Response of its
own before it; the tag is `P1 * 256 + P2`; when `n - 5 < 256` the value is the
`n - 5` bytes from `cmd_APDU[5]` on, and when `n - 5 >= 256` it is the `n - 7`
bytes from `cmd_APDU[7]` on. In particular `n - 5 = 300` hands over 298 bytes
from offset 7. -/
theorem cmd_put_data_selected (E : Env W) (s : Machine W)
    (hfs : s.file_selection = FILE_DF_OPENPGP) :
    (s.cmd_APDU_size - 5 < 256 →
      (cmd_put_data E s).since s =
        [Call.gpg_do_put_data (s.byte 2 * 256 + s.byte 3) 5 (s.cmd_APDU_size - 5)] ∧
      (cmd_put_data E s).out =
        E.gpg_do_put_data (s.byte 2 * 256 + s.byte 3) s.cmd_APDU 5
          (s.cmd_APDU_size - 5) s.out) ∧
    (s.cmd_APDU_size - 5 ≥ 256 →
      (cmd_put_data E s).since s =
        [Call.gpg_do_put_data (s.byte 2 * 256 + s.byte 3) 7 (s.cmd_APDU_size - 7)] ∧
      (cmd_put_data E s).out =
        E.gpg_do_put_data (s.byte 2 * 256 + s.byte 3) s.cmd_APDU 7
          (s.cmd_APDU_size - 7) s.out) ∧
    (s.cmd_APDU_size - 5 = 300 →
      (cmd_put_data E s).since s =
        [Call.gpg_do_put_data (s.byte 2 * 256 + s.byte 3) 7 298]) := by
  refine ⟨fun h => ?_, fun h => ?_, fun h => ?_⟩
  · have h' : ¬ s.cmd_APDU_size - 5 ≥ 256 := by omega
    simp [cmd_put_data, hfs, h', Machine.since, tag_eq]
  · have e : s.cmd_APDU_size - 5 - 2 = s.cmd_APDU_size - 7 := by omega
    simp [cmd_put_data, hfs, h, Machine.since, tag_eq, e]
  · have h' : s.cmd_APDU_size - 5 ≥ 256 := by omega
    have e : s.cmd_APDU_size - 5 - 2 = 298 := by omega
    simp [cmd_put_data, hfs, h', Machine.since, tag_eq, e]

set_option maxRecDepth 100000 in
/-- Witness for C11: a Put Data of size 305 (`cmd_APDU_size - 5 = 300`) for tag
0x0101 with OpenPGP-Application selected; the store receives offset 7 and length
298 and then holds the 298 bytes `77` under the tag. -/
theorem cmd_put_data_selected_witness :
    (arrive put_long_command FILE_DF_OPENPGP Card.blank).file_selection = FILE_DF_OPENPGP ∧
    (arrive put_long_command FILE_DF_OPENPGP Card.blank).cmd_APDU_size - 5 = 300 ∧
    (cmd_put_data cardEnv (arrive put_long_command FILE_DF_OPENPGP Card.blank)).since
      (arrive put_long_command FILE_DF_OPENPGP Card.blank) =
        [Call.gpg_do_put_data 0x0101 7 298] ∧
    (cmd_put_data cardEnv
      (arrive put_long_command FILE_DF_OPENPGP Card.blank)).out.ext.objects =
        [(0x0101, List.replicate 298 0x77)] := by
  refine ⟨by decide, by decide, ?_, by decide⟩
  exact (cmd_put_data_selected cardEnv (arrive put_long_command FILE_DF_OPENPGP Card.blank)
    (by decide)).2.2 (by decide)

/-! ## Select File -/

/-- C12: a Select File command by DF name (P1 = 4), in particular one that
carries the OpenPGP application identifier, leaves file selection equal to
OpenPGP-Application and answers Success with no payload, for every prior file
selection; no collaborator is invoked. -/
theorem cmd_select_file_by_df_name (E : Env W) (s : Machine W) (hp1 : s.byte 2 = 4) :
    (cmd_select_file E s).file_selection = FILE_DF_OPENPGP ∧
    (cmd_select_file E s).out.isStatus E.SW_SUCCESS ∧
    (cmd_select_file E s).trace = s.trace ∧
    (cmd_select_file E s).out.ext = s.out.ext := by
  simp [cmd_select_file, hp1, Machine.resp, GPG_SUCCESS, write_res_apdu_zero_isStatus]

/-- Witness for C12: the command `00 A4 04 00 06 D2 76 00 01 24 01` from each of
the four prior file selections. -/
theorem cmd_select_file_by_df_name_witness :
    ((cmd_select_file cardEnv (arrive select_aid_command FILE_NONE Card.blank)).file_selection
        = FILE_DF_OPENPGP ∧
      (cmd_select_file cardEnv (arrive select_aid_command FILE_NONE Card.blank)).out.isStatus
        (0x90, 0x00)) ∧
    ((cmd_select_file cardEnv (arrive select_aid_command FILE_MF Card.blank)).file_selection
        = FILE_DF_OPENPGP ∧
      (cmd_select_file cardEnv (arrive select_aid_command FILE_MF Card.blank)).out.isStatus
        (0x90, 0x00)) ∧
    ((cmd_select_file cardEnv
        (arrive select_aid_command FILE_DF_OPENPGP Card.blank)).file_selection
        = FILE_DF_OPENPGP ∧
      (cmd_select_file cardEnv
        (arrive select_aid_command FILE_DF_OPENPGP Card.blank)).out.isStatus (0x90, 0x00)) ∧
    ((cmd_select_file cardEnv
        (arrive select_aid_command FILE_EF_SERIAL Card.blank)).file_selection
        = FILE_DF_OPENPGP ∧
      (cmd_select_file cardEnv
        (arrive select_aid_command FILE_EF_SERIAL Card.blank)).out.isStatus (0x90, 0x00)) :=
  have h := fun fs => cmd_select_file_by_df_name cardEnv
    (arrive select_aid_command fs Card.blank) rfl
  ⟨⟨(h _).1, (h _).2.1⟩, ⟨(h _).1, (h _).2.1⟩, ⟨(h _).1, (h _).2.1⟩, ⟨(h _).1, (h _).2.1⟩⟩

/-- C13 (the code departs from the claim): `cmd_select_file` does not look at the
name when P1 = 4: every such command selects OpenPGP-Application and answers
Success, whatever its payload. For P1 other than 4, a payload that is neither the
2-byte path `2F 02` nor the 2-byte path `3F 00` resets file selection to None and
answers "file/record not found". -/
theorem cmd_select_file_unknown_target (E : Env W) (s : Machine W) :
    (s.byte 2 = 4 →
      (cmd_select_file E s).file_selection = FILE_DF_OPENPGP ∧
      (cmd_select_file E s).out.isStatus E.SW_SUCCESS) ∧
    (s.byte 2 ≠ 4 →
      ¬ (s.byte 4 = 2 ∧ s.byte 5 = 0x2f ∧ s.byte 6 = 0x02) →
      ¬ (s.byte 4 = 2 ∧ s.byte 5 = 0x3f ∧ s.byte 6 = 0x00) →
      (cmd_select_file E s).file_selection = FILE_NONE ∧
      (cmd_select_file E s).out.isStatus E.SW_NO_FILE) := by
  constructor
  · intro h
    simp [cmd_select_file, h, Machine.resp, GPG_SUCCESS, write_res_apdu_zero_isStatus]
  · intro h ha hb
    simp only [cmd_select_file, h, ha, hb, if_false]
    simp [Machine.resp, GPG_NO_FILE, write_res_apdu_zero_isStatus]

/-- Witness for C13: the command `00 A4 04 00 02 12 34`, whose payload is none of
the three known targets, on a card with no file selected: OpenPGP-Application is
selected and the Response is Success, not "file/record not found". -/
theorem cmd_select_file_unknown_target_witness :
    (cmd_select_file cardEnv
      (arrive select_other_name_command FILE_NONE Card.blank)).file_selection
        = FILE_DF_OPENPGP ∧
    (cmd_select_file cardEnv
      (arrive select_other_name_command FILE_NONE Card.blank)).file_selection ≠ FILE_NONE ∧
    (cmd_select_file cardEnv
      (arrive select_other_name_command FILE_NONE Card.blank)).out.isStatus (0x90, 0x00) ∧
    ¬ (cmd_select_file cardEnv
      (arrive select_other_name_command FILE_NONE Card.blank)).out.isStatus
        cardEnv.SW_NO_FILE := by
  have h := (cmd_select_file_unknown_target cardEnv
    (arrive select_other_name_command FILE_NONE Card.blank)).1 (by decide)
  exact ⟨h.1, by decide, h.2, by decide⟩

/-! ## Read Binary -/

/-- C14: `cmd_read_binary` answers NoRecord with no payload when file selection is
not Serial-Number-File; with Serial-Number-File selected it answers the
parameter-error status with no payload when `cmd_APDU[3] >= 6`, and otherwise the
6 bytes of `get_data_rb_result` followed by `90 00` (size 8), whatever the offset
below 6. File selection and the collaborator state are unchanged and no
collaborator is invoked. -/
theorem cmd_read_binary_spec (E : Env W) (s : Machine W) :
    (s.file_selection ≠ FILE_EF_SERIAL →
      (cmd_read_binary E s).out.isStatus E.SW_NO_RECORD) ∧
    (s.file_selection = FILE_EF_SERIAL → s.byte 3 ≥ 6 →
      (cmd_read_binary E s).out.isStatus E.SW_BAD_P0_P1) ∧
    (s.file_selection = FILE_EF_SERIAL → s.byte 3 < 6 →
      (cmd_read_binary E s).out.res_APDU_size = 8 ∧
      (∀ i, i < 6 → (cmd_read_binary E s).out.res_APDU i = rd E.get_data_rb_result i) ∧
      (cmd_read_binary E s).out.res_APDU 6 = 0x90 ∧
      (cmd_read_binary E s).out.res_APDU 7 = 0x00) ∧
    (cmd_read_binary E s).file_selection = s.file_selection ∧
    (cmd_read_binary E s).trace = s.trace ∧
    (cmd_read_binary E s).out.ext = s.out.ext := by
  refine ⟨fun h => ?_, fun h h3 => ?_, fun h h3 => ?_, ?_, ?_, ?_⟩
  · simp [cmd_read_binary, h, GPG_NO_RECORD, write_res_apdu_zero_isStatus]
  · simp [cmd_read_binary, h, h3, GPG_BAD_P0_P1, write_res_apdu_zero_isStatus]
  · have h3' : ¬ s.byte 3 ≥ 6 := by omega
    simp only [cmd_read_binary, h, h3', if_true, if_false, resp_out]
    refine ⟨rfl, fun i hi => ?_, ?_, ?_⟩
    · have h1 : i ≠ 7 := by omega
      have h2 : i ≠ 6 := by omega
      simp [write_res_apdu, poke, memcpy, h1, h2, hi]
    · simp [write_res_apdu, poke]
    · simp [write_res_apdu, poke]
  · unfold cmd_read_binary; split_ifs <;> rfl
  · unfold cmd_read_binary; split_ifs <;> rfl
  · unfold cmd_read_binary; split_ifs <;> rfl

/-! ## Dispatcher -/

/-- The search loop ends past the table when no entry matches. -/
theorem search_cmds_not_found (cmd : Nat) (l : List (Nat × Handler)) (i : Nat)
    (h : ∀ e ∈ l, e.1 ≠ cmd) : search_cmds cmd l i = i + l.length := by
  induction l generalizing i with
  | nil => simp [search_cmds]
  | cons e rest ih =>
    have he : e.1 ≠ cmd := h e (List.mem_cons_self _ _)
    have hr : ∀ e' ∈ rest, e'.1 ≠ cmd := fun e' he' => h e' (List.mem_cons_of_mem _ he')
    simp [search_cmds, he, ih (i + 1) hr]
    omega

/-- The dispatcher calls the handler of the table entry at which the search loop
stopped. -/
theorem process_command_apdu_of_found (E : Env W) (s : Machine W) (i : Nat)
    (e : Nat × Handler) (hi : search_cmds (s.byte 1) cmds 0 = i) (hlt : i < NUM_CMDS)
    (hget : cmds.get? i = some e) : process_command_apdu E s = e.2.run E s := by
  simp only [process_command_apdu, hi, hlt, if_true, hget]

/-- C15: when the instruction byte `cmd_APDU[1]` is none of the ten bytes of the
table, `process_command_apdu` answers the unknown-instruction status with no
payload, invokes no handler and no collaborator, and leaves file selection and the
collaborator state unchanged. When it is one of the ten bytes,
`process_command_apdu` is exactly one run of the handler paired with it: 0x20
`cmd_verify`, 0x24 `cmd_change_password`, 0x2A `cmd_pso`, 0x2C
`cmd_reset_user_password`, 0x47 `cmd_pgp_gakp`, 0xA4 `cmd_select_file`, 0xB0
`cmd_read_binary`, 0xCA `cmd_get_data`, 0xDA and 0xDB `cmd_put_data`. -/
theorem process_command_apdu_dispatch (E : Env W) (s : Machine W) :
    (s.byte 1 ∉ [0x20, 0x24, 0x2A, 0x2C, 0x47, 0xA4, 0xB0, 0xCA, 0xDA, 0xDB] →
      ∃ r, process_command_apdu E s = some r ∧
        r.out.isStatus E.SW_NO_INS ∧
        r.file_selection = s.file_selection ∧
        r.trace = s.trace ∧
        r.out.ext = s.out.ext) ∧
    (s.byte 1 = 0x20 → process_command_apdu E s = some (cmd_verify E s)) ∧
    (s.byte 1 = 0x24 → process_command_apdu E s = some (cmd_change_password E s)) ∧
    (s.byte 1 = 0x2A → process_command_apdu E s = cmd_pso E s) ∧
    (s.byte 1 = 0x2C → process_command_apdu E s = some (cmd_reset_user_password E s)) ∧
    (s.byte 1 = 0x47 → process_command_apdu E s = some (cmd_pgp_gakp E s)) ∧
    (s.byte 1 = 0xA4 → process_command_apdu E s = some (cmd_select_file E s)) ∧
    (s.byte 1 = 0xB0 → process_command_apdu E s = some (cmd_read_binary E s)) ∧
    (s.byte 1 = 0xCA → process_command_apdu E s = some (cmd_get_data E s)) ∧
    (s.byte 1 = 0xDA → process_command_apdu E s = some (cmd_put_data E s)) ∧
    (s.byte 1 = 0xDB → process_command_apdu E s = some (cmd_put_data E s)) := by
  refine ⟨fun hn => ?_, fun hb => ?_, fun hb => ?_, fun hb => ?_, fun hb => ?_,
    fun hb => ?_, fun hb => ?_, fun hb => ?_, fun hb => ?_, fun hb => ?_, fun hb => ?_⟩
  · have hkeys : cmds.map Prod.fst =
        [0x20, 0x24, 0x2A, 0x2C, 0x47, 0xA4, 0xB0, 0xCA, 0xDA, 0xDB] := by decide
    have hall : ∀ e ∈ cmds, e.1 ≠ s.byte 1 := by
      intro e he heq
      apply hn
      rw [← heq, ← hkeys]
      exact List.mem_map_of_mem Prod.fst he
    have hi : search_cmds (s.byte 1) cmds 0 = NUM_CMDS := by
      rw [search_cmds_not_found _ _ _ hall]
      simp [NUM_CMDS]
    refine ⟨s.resp (GPG_NO_INS E), ?_, ?_, rfl, rfl, rfl⟩
    · simp [process_command_apdu, hi]
    · simp [GPG_NO_INS, write_res_apdu_zero_isStatus]
  · exact process_command_apdu_of_found E s 0 (INS_VERIFY, Handler.cmd_verify)
      (by rw [hb]; decide) (by decide) (by decide)
  · exact process_command_apdu_of_found E s 1
      (INS_CHANGE_REFERENCE_DATA, Handler.cmd_change_password)
      (by rw [hb]; decide) (by decide) (by decide)
  · exact process_command_apdu_of_found E s 2 (INS_PSO, Handler.cmd_pso)
      (by rw [hb]; decide) (by decide) (by decide)
  · exact process_command_apdu_of_found E s 3
      (INS_RESET_RETRY_COUNTER, Handler.cmd_reset_user_password)
      (by rw [hb]; decide) (by decide) (by decide)
  · exact process_command_apdu_of_found E s 4
      (INS_PGP_GENERATE_ASYMMETRIC_KEY_PAIR, Handler.cmd_pgp_gakp)
      (by rw [hb]; decide) (by decide) (by decide)
  · exact process_command_apdu_of_found E s 5 (INS_SELECT_FILE, Handler.cmd_select_file)
      (by rw [hb]; decide) (by decide) (by decide)
  · exact process_command_apdu_of_found E s 6 (INS_READ_BINARY, Handler.cmd_read_binary)
      (by rw [hb]; decide) (by decide) (by decide)
  · exact process_command_apdu_of_found E s 7 (INS_GET_DATA, Handler.cmd_get_data)
      (by rw [hb]; decide) (by decide) (by decide)
  · exact process_command_apdu_of_found E s 8 (INS_PUT_DATA, Handler.cmd_put_data)
      (by rw [hb]; decide) (by decide) (by decide)
  · exact process_command_apdu_of_found E s 9 (INS_PUT_DATA_ODD, Handler.cmd_put_data)
      (by rw [hb]; decide) (by decide) (by decide)

/-- Witness for C15: the instruction byte 0x84 is not in the table and is answered
with `6D 00`; the instruction byte 0xB0 runs `cmd_read_binary`, which answers the
serial-number datum (size 8) here. -/
theorem process_command_apdu_dispatch_witness :
    (∃ r, process_command_apdu cardEnv
        (arrive unknown_ins_command FILE_EF_SERIAL Card.blank) = some r ∧
      r.out.isStatus (0x6d, 0x00) ∧ r.file_selection = FILE_EF_SERIAL ∧ r.trace = []) ∧
    process_command_apdu cardEnv (arrive read_binary_command FILE_EF_SERIAL Card.blank) =
      some (cmd_read_binary cardEnv (arrive read_binary_command FILE_EF_SERIAL Card.blank)) ∧
    (cmd_read_binary cardEnv
      (arrive read_binary_command FILE_EF_SERIAL Card.blank)).out.res_APDU_size = 8 := by
  refine ⟨?_, ?_, by decide⟩
  · obtain ⟨r, h, hst, hfs, htr, _⟩ := (process_command_apdu_dispatch cardEnv
      (arrive unknown_ins_command FILE_EF_SERIAL Card.blank)).1 (by decide)
    exact ⟨r, h, hst, hfs, htr⟩
  · exact (process_command_apdu_dispatch cardEnv
      (arrive read_binary_command FILE_EF_SERIAL Card.blank)).2.2.2.2.2.2.2.1 (by decide)

/-! ## Response builder -/

/-- C16: after `write_res_apdu (p, len, sw1, sw2)` with a payload `p` of at least
`len` bytes and status bytes `sw1`, `sw2`: `res_APDU_size` is `len + 2`, the first
`len` bytes of `res_APDU` are those of `p`, the next two are `sw1` and `sw2`, every
byte from index `len + 2` on is unchanged, and the collaborator state is
unchanged. With `len = 0` the result does not depend on `p`. -/
theorem write_res_apdu_spec (p : List Nat) (len sw1 sw2 : Nat) (o : Out W)
    (hp : ∀ x ∈ p, x < 256) (hlen : len ≤ p.length)
    (h1 : sw1 < 256) (h2 : sw2 < 256) :
    (write_res_apdu p len sw1 sw2 o).res_APDU_size = len + 2 ∧
    (∀ i, i < len → p[i]? = some ((write_res_apdu p len sw1 sw2 o).res_APDU i)) ∧
    (write_res_apdu p len sw1 sw2 o).res_APDU len = sw1 ∧
    (write_res_apdu p len sw1 sw2 o).res_APDU (len + 1) = sw2 ∧
    (∀ i, i ≥ len + 2 → (write_res_apdu p len sw1 sw2 o).res_APDU i = o.res_APDU i) ∧
    (write_res_apdu p len sw1 sw2 o).ext = o.ext ∧
    (len = 0 → ∀ q : List Nat,
      write_res_apdu q len sw1 sw2 o = write_res_apdu p len sw1 sw2 o) := by
  refine ⟨?_, ?_, ?_, ?_, ?_, rfl, ?_⟩
  · simp [write_res_apdu]; omega
  · intro i hi
    have hil : i < p.length := by omega
    have hx : p[i] < 256 := hp _ (List.getElem_mem _)
    have ha : i ≠ len + 1 := by omega
    have hb : i ≠ len := by omega
    have hc : len ≠ 0 := by omega
    simp [write_res_apdu, poke, memcpy, rd, ha, hb, hc, hi, List.getD_eq_getElem?_getD,
      List.getElem?_eq_getElem hil, Nat.mod_eq_of_lt hx]
  · simp [write_res_apdu, poke, Nat.mod_eq_of_lt h1]
  · simp [write_res_apdu, poke, Nat.mod_eq_of_lt h2]
  · intro i hi
    have ha : i ≠ len + 1 := by omega
    have hb : i ≠ len := by omega
    have hc : ¬ i < len := by omega
    by_cases h0 : len = 0
    · subst h0
      have hd : i ≠ 1 := by omega
      have he : i ≠ 0 := by omega
      simp [write_res_apdu, poke, hd, he]
    · simp [write_res_apdu, poke, memcpy, ha, hb, hc, h0]
  · intro h0 q
    subst h0
    simp [write_res_apdu]

/-- Witness for C16: the payload `5A 04 01` with status `90 00` written over a
buffer that held `EE` everywhere. -/
theorem write_res_apdu_spec_witness :
    (write_res_apdu [0x5a, 0x04, 0x01] 3 0x90 0x00
      (arrive [] FILE_NONE Card.blank).out).res_APDU_size = 5 ∧
    (write_res_apdu [0x5a, 0x04, 0x01] 3 0x90 0x00
      (arrive [] FILE_NONE Card.blank).out).res_APDU 3 = 0x90 ∧
    (write_res_apdu [0x5a, 0x04, 0x01] 3 0x90 0x00
      (arrive [] FILE_NONE Card.blank).out).res_APDU 4 = 0x00 ∧
    (write_res_apdu [0x5a, 0x04, 0x01] 3 0x90 0x00
      (arrive [] FILE_NONE Card.blank).out).res_APDU 5 = 0xEE :=
  have h := write_res_apdu_spec [0x5a, 0x04, 0x01] 3 0x90 0x00
    (arrive [] FILE_NONE Card.blank).out (by decide) (by decide) (by decide) (by decide)
  ⟨h.1, h.2.2.1, h.2.2.2.1, h.2.2.2.2.1 5 (by decide)⟩

/-! ## Compute Digital Signature: the length field -/

/-- The length field of a Compute-Digital-Signature command is not compared with
`cmd_APDU_size`: for a command of size 43 or 44 with signing authorization set
(and a Password Status stored, so that the handler returns), `cmd_pso` invokes
`rsa_sign` with the length `cmd_APDU[5] * 256 + cmd_APDU[6]`, whatever that value
is. -/
theorem cmd_pso_length_field_unchecked (E : Env W) (s : Machine W) (pws : List Nat)
    (h2 : s.byte 2 = 0x9E) (h3 : s.byte 3 = 0x9A)
    (hsize : s.cmd_APDU_size = 43 ∨ s.cmd_APDU_size = 44)
    (hauth : E.ac_check_status E.AC_PSO_CDS_AUTHORIZED s.out.ext = true)
    (hpws : E.gpg_do_read_simple E.GNUK_DO_PW_STATUS
      (E.rsa_sign s.cmd_APDU 7 (be16 (s.byte 5) (s.byte 6)) s.out).2.ext = some pws) :
    ∃ r rest, cmd_pso E s = some r ∧
      r.since s = [Call.ac_check_status E.AC_PSO_CDS_AUTHORIZED,
        Call.rsa_sign 7 ((s.byte 5 * 256 + s.byte 6 : Nat) : Int)] ++ rest := by
  have hs : ¬ (s.cmd_APDU_size ≠ 8 + 35 ∧ s.cmd_APDU_size ≠ 8 + 35 + 1) := by
    rcases hsize with h | h <;> simp [h]
  have hb : be16 (s.byte 5) (s.byte 6) = s.byte 5 * 256 + s.byte 6 :=
    be16_eq _ _ (rd_lt _ _)
  rw [← hb]
  by_cases hneg : (E.rsa_sign s.cmd_APDU 7 (be16 (s.byte 5) (s.byte 6)) s.out).1 < 0
  · refine ⟨_, [], by simp only [cmd_pso, h2, h3, hauth, hs]; simp [hneg]; rfl, ?_⟩
    simp [Machine.since]
  · by_cases h0 : rd pws 0 = 0
    · refine ⟨_, [Call.gpg_do_read_simple E.GNUK_DO_PW_STATUS, Call.reset_pso_cds,
          Call.gpg_do_increment_digital_signature_counter],
        by simp only [cmd_pso, h2, h3, hauth, hs]; simp [hneg, hpws, h0]; rfl, ?_⟩
      simp [Machine.since]
    · refine ⟨_, [Call.gpg_do_read_simple E.GNUK_DO_PW_STATUS,
          Call.gpg_do_increment_digital_signature_counter],
        by simp only [cmd_pso, h2, h3, hauth, hs]; simp [hneg, hpws, h0]; rfl, ?_⟩
      simp [Machine.since]

/-- On the concrete card, a 43-byte command whose length field is `FF FF`:
`rsa_sign` is invoked with length 65535 although only 36 bytes follow the field in
the command. -/
theorem cmd_pso_length_field_unchecked_witness :
    (∃ r rest, cmd_pso cardEnv
        (arrive cds_bad_length_command FILE_DF_OPENPGP (Card.signing 1)) = some r ∧
      r.since (arrive cds_bad_length_command FILE_DF_OPENPGP (Card.signing 1)) =
        [Call.ac_check_status 1, Call.rsa_sign 7 65535] ++ rest) ∧
    (arrive cds_bad_length_command FILE_DF_OPENPGP (Card.signing 1)).cmd_APDU_size - 7 = 36 :=
  ⟨cmd_pso_length_field_unchecked cardEnv
      (arrive cds_bad_length_command FILE_DF_OPENPGP (Card.signing 1))
      [1, 127, 127, 127, 3, 3, 3] (by decide) (by decide) (Or.inl (by decide)) (by decide)
      (by decide),
    by decide⟩

/-- The invocations of `gpg_change_keystring`: the load step, and the
re-encryption step exactly when the load step returned a positive value. -/
theorem gpg_change_keystring_trace (E : Env W) (who_old : Int) (old_ks : List Nat)
    (who_new : Int) (new_ks : List Nat) (s : Machine W) :
    (gpg_change_keystring E who_old old_ks who_new new_ks s).2.trace =
      s.trace ++ (Call.gpg_do_load_prvkey E.GPG_KEY_FOR_SIGNATURE who_old old_ks ::
        (if (E.gpg_do_load_prvkey E.GPG_KEY_FOR_SIGNATURE who_old old_ks s.out).1 ≤ 0
          then []
          else [Call.gpg_do_chks_prvkey E.GPG_KEY_FOR_SIGNATURE who_old old_ks
            who_new new_ks])) := by
  simp only [gpg_change_keystring]
  split_ifs <;> simp_all

/-- The result of `gpg_change_keystring`: the result of the load step when that is
not positive, otherwise -2 when the re-encryption step returned a negative value,
otherwise the result of the re-encryption step. -/
theorem gpg_change_keystring_fst (E : Env W) (who_old : Int) (old_ks : List Nat)
    (who_new : Int) (new_ks : List Nat) (s : Machine W) :
    (gpg_change_keystring E who_old old_ks who_new new_ks s).1 =
      (if (E.gpg_do_load_prvkey E.GPG_KEY_FOR_SIGNATURE who_old old_ks s.out).1 ≤ 0 then
        (E.gpg_do_load_prvkey E.GPG_KEY_FOR_SIGNATURE who_old old_ks s.out).1
      else if (E.gpg_do_chks_prvkey E.GPG_KEY_FOR_SIGNATURE who_old old_ks who_new new_ks
          (E.gpg_do_load_prvkey E.GPG_KEY_FOR_SIGNATURE who_old old_ks s.out).2).1 < 0 then -2
      else (E.gpg_do_chks_prvkey E.GPG_KEY_FOR_SIGNATURE who_old old_ks who_new new_ks
          (E.gpg_do_load_prvkey E.GPG_KEY_FOR_SIGNATURE who_old old_ks s.out).2).1) := by
  simp only [gpg_change_keystring]
  split_ifs <;> simp_all

/-! ## Reset Retry Counter: where the secret is read -/

/-- C18 (the code departs from the claim): `cmd_reset_user_password` takes the
secret length from `cmd_APDU[3]` (the parameter byte P2) and the secret from
`cmd_APDU[4]` on, one byte before the positions `cmd_APDU[4]` and `cmd_APDU[5]`
that `cmd_verify` and `cmd_change_password` use. In the administrator-driven
variant with administrator authorization set, the digest is taken over
`cmd_APDU[3]` bytes from offset 4; it is the new Key String handed to the
re-encryption step when the load step returns a positive value, and with the
length byte `cmd_APDU[3]` in front it is the Key String written when the load step
returns 0. -/
theorem cmd_reset_user_password_admin_offsets (E : Env W) (s : Machine W)
    (hp1 : s.byte 2 ≠ 0x00)
    (hadmin : E.ac_check_status E.AC_ADMIN_AUTHORIZED s.out.ext = true) :
    (∃ rest, (cmd_reset_user_password E s).since s =
      [Call.ac_check_status E.AC_ADMIN_AUTHORIZED,
        Call.sha1 4 (s.byte 3),
        Call.gpg_do_load_prvkey E.GPG_KEY_FOR_SIGNATURE 3 (E.keystring_md_pw3 s.out.ext)]
        ++ rest) ∧
    (0 < (E.gpg_do_load_prvkey E.GPG_KEY_FOR_SIGNATURE 3
        (E.keystring_md_pw3 s.out.ext) s.out).1 →
      ∃ rest, (cmd_reset_user_password E s).since s =
        [Call.ac_check_status E.AC_ADMIN_AUTHORIZED,
          Call.sha1 4 (s.byte 3),
          Call.gpg_do_load_prvkey E.GPG_KEY_FOR_SIGNATURE 3 (E.keystring_md_pw3 s.out.ext),
          Call.gpg_do_chks_prvkey E.GPG_KEY_FOR_SIGNATURE 3 (E.keystring_md_pw3 s.out.ext)
            1 (E.sha1 s.cmd_APDU 4 (s.byte 3))] ++ rest) ∧
    ((E.gpg_do_load_prvkey E.GPG_KEY_FOR_SIGNATURE 3
        (E.keystring_md_pw3 s.out.ext) s.out).1 = 0 →
      (cmd_reset_user_password E s).since s =
        [Call.ac_check_status E.AC_ADMIN_AUTHORIZED,
          Call.sha1 4 (s.byte 3),
          Call.gpg_do_load_prvkey E.GPG_KEY_FOR_SIGNATURE 3 (E.keystring_md_pw3 s.out.ext),
          Call.gpg_do_write_simple E.GNUK_DO_KEYSTRING_PW1
            (u8 (s.byte 3) :: E.sha1 s.cmd_APDU 4 (s.byte 3)) E.KEYSTRING_SIZE_PW1,
          Call.reset_pso_cds]) := by
  have hcond : (E.ac_check_status E.AC_ADMIN_AUTHORIZED s.out.ext = false) = False := by
    simp [hadmin]
  have ht := gpg_change_keystring_trace E 3 (E.keystring_md_pw3 s.out.ext) 1
    (E.sha1 s.cmd_APDU 4 (s.byte 3))
    ((s.note (Call.ac_check_status E.AC_ADMIN_AUTHORIZED)).note (Call.sha1 4 (s.byte 3)))
  have hf := gpg_change_keystring_fst E 3 (E.keystring_md_pw3 s.out.ext) 1
    (E.sha1 s.cmd_APDU 4 (s.byte 3))
    ((s.note (Call.ac_check_status E.AC_ADMIN_AUTHORIZED)).note (Call.sha1 4 (s.byte 3)))
  simp only [note_out, note_trace] at ht hf
  simp only [cmd_reset_user_password, if_neg hp1, hcond, if_false]
  generalize gpg_change_keystring E 3 (E.keystring_md_pw3 s.out.ext) 1
    (E.sha1 s.cmd_APDU 4 (s.byte 3))
    ((s.note (Call.ac_check_status E.AC_ADMIN_AUTHORIZED)).note (Call.sha1 4 (s.byte 3)))
    = x at ht hf ⊢
  refine ⟨?_, fun hpos => ?_, fun h0 => ?_⟩
  · split_ifs <;> simp [Machine.since, ht]
  · have hle : ¬ (E.gpg_do_load_prvkey E.GPG_KEY_FOR_SIGNATURE 3
        (E.keystring_md_pw3 s.out.ext) s.out).1 ≤ 0 := by omega
    simp only [hle, if_false] at ht
    split_ifs <;> simp [Machine.since, ht]
  · have hle : (E.gpg_do_load_prvkey E.GPG_KEY_FOR_SIGNATURE 3
        (E.keystring_md_pw3 s.out.ext) s.out).1 ≤ 0 := by omega
    simp only [hle, if_true] at ht hf
    have hx0 : x.1 = 0 := by omega
    simp [hx0, Machine.since, ht]

/-- Witness for C18: the administrator resets the user password with the command
`00 2C 02 81 08 21 .. 28` (Lc = 8) on a card without private key. The handler
digests 129 bytes (the value of P2) from offset 4 and writes a Key String with
length byte 129; the digest of the 8 payload bytes at offset 5 is a different
one. -/
theorem cmd_reset_user_password_admin_offsets_witness :
    (cmd_reset_user_password cardEnv
        (arrive reset_by_admin_command FILE_DF_OPENPGP
          { Card.blank with admin_authorized := true })).since
        (arrive reset_by_admin_command FILE_DF_OPENPGP
          { Card.blank with admin_authorized := true }) =
      [Call.ac_check_status 4, Call.sha1 4 129, Call.gpg_do_load_prvkey 0 3 [],
        Call.gpg_do_write_simple 1 (129 :: Card.digest reset_by_admin_command 4 129) 21,
        Call.reset_pso_cds] ∧
    (arrive reset_by_admin_command FILE_DF_OPENPGP
      { Card.blank with admin_authorized := true }).byte 4 = 8 ∧
    Card.digest reset_by_admin_command 4 129 ≠ Card.digest reset_by_admin_command 5 8 :=
  ⟨(cmd_reset_user_password_admin_offsets cardEnv
      (arrive reset_by_admin_command FILE_DF_OPENPGP
        { Card.blank with admin_authorized := true })
      (by decide) (by decide)).2.2 (by decide),
    by decide, by decide⟩

/-! ## Change Reference Data: the Key String written -/

/-- C19 (the code departs from the claim): in the bootstrap case of
`cmd_change_password` (P2 = 0x81, no PW1 Key String stored, Lc >= 6) the handler
jumps to `no_prvkey` past the two digests and the store of the length byte: no
digest is computed, and the `KEYSTRING_SIZE_PW1` bytes written are the content
the automatic array `new_ks0` happens to have, not a function of the command. -/
theorem cmd_change_password_bootstrap_key_string (E : Env W) (s : Machine W)
    (hp2 : s.byte 3 = 0x81)
    (hpk : E.gpg_do_read_simple E.GNUK_DO_KEYSTRING_PW1 s.out.ext = none)
    (hlen : 6 ≤ s.byte 4) :
    (cmd_change_password E s).since s =
      [Call.gpg_do_read_simple E.GNUK_DO_KEYSTRING_PW1,
        Call.gpg_do_write_simple E.GNUK_DO_KEYSTRING_PW1 s.stack_junk E.KEYSTRING_SIZE_PW1,
        Call.reset_pso_cds] := by
  have hwho : ((s.byte 3 : Nat) : Int) - 0x80 = 1 := by omega
  have hl : ¬ ((s.byte 4 : Nat) : Int) < 6 := by omega
  simp [cmd_change_password, hwho, hpk, hl, cmd_change_password_no_prvkey, Machine.since]

/-- Witness for C19: the same bootstrap command `00 24 00 81 0C 31 .. 36 41 .. 46`
on the same blank card, once with the array holding `CC` and once with it holding
zeros; the bytes written differ, and neither is the length 6 followed by the
digest of the new password. -/
theorem cmd_change_password_bootstrap_key_string_witness :
    (cmd_change_password cardEnv
        (arrive change_pw1_command FILE_DF_OPENPGP Card.blank)).since
        (arrive change_pw1_command FILE_DF_OPENPGP Card.blank) =
      [Call.gpg_do_read_simple 1,
        Call.gpg_do_write_simple 1 (List.replicate 21 0xCC) 21, Call.reset_pso_cds] ∧
    (cmd_change_password cardEnv
        { arrive change_pw1_command FILE_DF_OPENPGP Card.blank with
          stack_junk := List.replicate 21 0 }).since
        { arrive change_pw1_command FILE_DF_OPENPGP Card.blank with
          stack_junk := List.replicate 21 0 } =
      [Call.gpg_do_read_simple 1,
        Call.gpg_do_write_simple 1 (List.replicate 21 0) 21, Call.reset_pso_cds] ∧
    List.replicate 21 0xCC ≠ 6 :: Card.digest change_pw1_command 11 6 ∧
    List.replicate 21 0 ≠ 6 :: Card.digest change_pw1_command 11 6 :=
  ⟨cmd_change_password_bootstrap_key_string cardEnv
      (arrive change_pw1_command FILE_DF_OPENPGP Card.blank)
      (by decide) (by decide) (by decide),
    cmd_change_password_bootstrap_key_string cardEnv
      { arrive change_pw1_command FILE_DF_OPENPGP Card.blank with
        stack_junk := List.replicate 21 0 }
      (by decide) (by decide) (by decide),
    by decide, by decide⟩

/-! ## Faults of the re-wrap -/

/-- C20 (the code departs from the claim): in `cmd_change_password` for the user
credential with a PW1 Key String `pk` stored, (1) a load step that returns a value
below -2 is answered with MemoryFailure and the re-encryption step is not
invoked; (2) when the load step returns a positive value the re-encryption step
is invoked, and any negative result of it, a fault code below -2 included, is
turned into -2 by `gpg_change_keystring` and answered with SecurityFailure. -/
theorem cmd_change_password_rewrap_faults (E : Env W) (s : Machine W) (pk : List Nat)
    (hp2 : s.byte 3 = 0x81)
    (hpk : E.gpg_do_read_simple E.GNUK_DO_KEYSTRING_PW1 s.out.ext = some pk) :
    ((E.gpg_do_load_prvkey E.GPG_KEY_FOR_SIGNATURE 1
        (E.sha1 s.cmd_APDU 5 (rd pk 0)) s.out).1 < -2 →
      (cmd_change_password E s).out.isStatus E.SW_MEMORY_FAILURE ∧
      (cmd_change_password E s).since s =
        [Call.gpg_do_read_simple E.GNUK_DO_KEYSTRING_PW1,
          Call.sha1 5 (rd pk 0),
          Call.sha1 (5 + (rd pk 0 : Int)) ((s.byte 4 : Int) - (rd pk 0 : Int)),
          Call.gpg_do_load_prvkey E.GPG_KEY_FOR_SIGNATURE 1
            (E.sha1 s.cmd_APDU 5 (rd pk 0))]) ∧
    (0 < (E.gpg_do_load_prvkey E.GPG_KEY_FOR_SIGNATURE 1
        (E.sha1 s.cmd_APDU 5 (rd pk 0)) s.out).1 →
      (E.gpg_do_chks_prvkey E.GPG_KEY_FOR_SIGNATURE 1 (E.sha1 s.cmd_APDU 5 (rd pk 0)) 1
        (E.sha1 s.cmd_APDU (5 + (rd pk 0 : Int)) ((s.byte 4 : Int) - (rd pk 0 : Int)))
        (E.gpg_do_load_prvkey E.GPG_KEY_FOR_SIGNATURE 1
          (E.sha1 s.cmd_APDU 5 (rd pk 0)) s.out).2).1 < 0 →
      (cmd_change_password E s).out.isStatus E.SW_SECURITY_FAILURE ∧
      (cmd_change_password E s).since s =
        [Call.gpg_do_read_simple E.GNUK_DO_KEYSTRING_PW1,
          Call.sha1 5 (rd pk 0),
          Call.sha1 (5 + (rd pk 0 : Int)) ((s.byte 4 : Int) - (rd pk 0 : Int)),
          Call.gpg_do_load_prvkey E.GPG_KEY_FOR_SIGNATURE 1
            (E.sha1 s.cmd_APDU 5 (rd pk 0)),
          Call.gpg_do_chks_prvkey E.GPG_KEY_FOR_SIGNATURE 1
            (E.sha1 s.cmd_APDU 5 (rd pk 0)) 1
            (E.sha1 s.cmd_APDU (5 + (rd pk 0 : Int))
              ((s.byte 4 : Int) - (rd pk 0 : Int)))]) := by
  have hwho : ((s.byte 3 : Nat) : Int) - 0x80 = 1 := by omega
  have ht := gpg_change_keystring_trace E 1 (E.sha1 s.cmd_APDU 5 (rd pk 0)) 1
    (E.sha1 s.cmd_APDU (5 + (rd pk 0 : Int)) ((s.byte 4 : Int) - (rd pk 0 : Int)))
    (((s.note (Call.gpg_do_read_simple E.GNUK_DO_KEYSTRING_PW1)).note
      (Call.sha1 5 (rd pk 0))).note
      (Call.sha1 (5 + (rd pk 0 : Int)) ((s.byte 4 : Int) - (rd pk 0 : Int))))
  have hf := gpg_change_keystring_fst E 1 (E.sha1 s.cmd_APDU 5 (rd pk 0)) 1
    (E.sha1 s.cmd_APDU (5 + (rd pk 0 : Int)) ((s.byte 4 : Int) - (rd pk 0 : Int)))
    (((s.note (Call.gpg_do_read_simple E.GNUK_DO_KEYSTRING_PW1)).note
      (Call.sha1 5 (rd pk 0))).note
      (Call.sha1 (5 + (rd pk 0 : Int)) ((s.byte 4 : Int) - (rd pk 0 : Int))))
  simp only [note_out, note_trace] at ht hf
  simp only [cmd_change_password, hwho, if_true, hpk, cmd_change_password_rewrap,
    note_cmd_APDU, note_out]
  generalize gpg_change_keystring E 1 (E.sha1 s.cmd_APDU 5 (rd pk 0)) 1
    (E.sha1 s.cmd_APDU (5 + (rd pk 0 : Int)) ((s.byte 4 : Int) - (rd pk 0 : Int)))
    (((s.note (Call.gpg_do_read_simple E.GNUK_DO_KEYSTRING_PW1)).note
      (Call.sha1 5 (rd pk 0))).note
      (Call.sha1 (5 + (rd pk 0 : Int)) ((s.byte 4 : Int) - (rd pk 0 : Int)))) = x at ht hf ⊢
  constructor
  · intro hl
    have hle : (E.gpg_do_load_prvkey E.GPG_KEY_FOR_SIGNATURE 1
        (E.sha1 s.cmd_APDU 5 (rd pk 0)) s.out).1 ≤ 0 := by omega
    simp only [hle, if_true] at ht hf
    have hx : x.1 < -2 := by omega
    simp [hx, Machine.since, ht, GPG_MEMORY_FAILURE, write_res_apdu_zero_isStatus]
  · intro hl hc
    have hle : ¬ (E.gpg_do_load_prvkey E.GPG_KEY_FOR_SIGNATURE 1
        (E.sha1 s.cmd_APDU 5 (rd pk 0)) s.out).1 ≤ 0 := by omega
    simp only [hle, if_false, hc, if_true] at ht hf
    have hx1 : ¬ x.1 < -2 := by omega
    have hx2 : x.1 < 0 := by omega
    simp [hx1, hx2, Machine.since, ht, GPG_SECURITY_FAILURE, write_res_apdu_zero_isStatus]

/-- Witness for C20: the user changes the password on a card whose re-encryption
step reports the storage fault -3. The load step succeeds, the re-encryption step
is invoked, and the Response is SecurityFailure `69 82`, not MemoryFailure. -/
theorem cmd_change_password_rewrap_faults_witness :
    (cardEnvChksFault.gpg_do_chks_prvkey 0 1 (Card.digest change_pw1_command 5 6) 1
      (Card.digest change_pw1_command 11 6)
      (arrive change_pw1_command FILE_DF_OPENPGP Card.with_user).out).1 = -3 ∧
    (cmd_change_password cardEnvChksFault
      (arrive change_pw1_command FILE_DF_OPENPGP Card.with_user)).out.isStatus (0x69, 0x82) ∧
    ¬ (cmd_change_password cardEnvChksFault
      (arrive change_pw1_command FILE_DF_OPENPGP Card.with_user)).out.isStatus
        cardEnvChksFault.SW_MEMORY_FAILURE ∧
    (cmd_change_password cardEnvChksFault
      (arrive change_pw1_command FILE_DF_OPENPGP Card.with_user)).since
      (arrive change_pw1_command FILE_DF_OPENPGP Card.with_user) =
      [Call.gpg_do_read_simple 1, Call.sha1 5 6, Call.sha1 11 6,
        Call.gpg_do_load_prvkey 0 1 (Card.digest change_pw1_command 5 6),
        Call.gpg_do_chks_prvkey 0 1 (Card.digest change_pw1_command 5 6) 1
          (Card.digest change_pw1_command 11 6)] := by
  have h := (cmd_change_password_rewrap_faults cardEnvChksFault
    (arrive change_pw1_command FILE_DF_OPENPGP Card.with_user)
    (6 :: Card.digest [0x31, 0x32, 0x33, 0x34, 0x35, 0x36] 0 6)
    (by decide) (by decide)).2 (by decide) (by decide)
  exact ⟨by decide, h.1, by decide, h.2⟩

end Gnuk
